/-
Verification of the picklecast capacity/revenue/financial engine.

The definitions below are a shallow embedding of the Python sources in
`engine/` (schedule.py, utilization.py, allocation.py, league_capacity.py,
revenue.py, capital.py, finance.py, compute.py, rent.py, projections.py,
statements.py).  Machine floats are modelled as exact rationals (ℚ); the
single transcendental computation (the logistic membership curve, which
uses `math.exp`) is modelled over ℝ.  Python functions that can raise
(`ZeroDivisionError`, `assert`, `raise ValueError`) are modelled as
`Option`-valued functions or via explicit side conditions; `none` means
the Python call raises.
-/
import Mathlib

/-! ## Data model (engine/models.py) -/

/-- engine/models.py `Facility`. -/
structure Facility where
  courts : ℤ
  hours_per_day : ℚ
deriving DecidableEq

/-- engine/models.py `PrimeWindow`. -/
structure PrimeWindow where
  mon_thu_start : ℚ
  mon_thu_end : ℚ
  fri_start : ℚ
  fri_end : ℚ
  weekend_morning_hours : ℚ
deriving DecidableEq

/-- engine/models.py `Pricing`. -/
structure Pricing where
  nm_prime_per_court : ℚ
  nm_off_per_court : ℚ
  member_prime_per_court : ℚ
  member_off_per_court : ℚ
deriving DecidableEq

/-- engine/models.py `LeagueConfig`. -/
structure LeagueConfig where
  session_len_h : ℚ
  buffer_min : ℤ
  weeknights : ℤ
  weekend_morns : ℤ
  courts_used : ℤ
  players_per_court : ℤ
  fill_rate : ℚ
  active_weeks : ℤ
  price_prime_slot_6wk : ℚ
  price_off_slot_6wk : ℚ
deriving DecidableEq

/-- engine/models.py `CorpConfig`. -/
structure CorpConfig where
  prime_rate_per_court : ℚ
  off_rate_per_court : ℚ
  events_per_month : ℤ
  hours_per_event : ℚ
  courts_used : ℤ
  extra_events_per_year : ℤ
deriving DecidableEq

/-- engine/models.py `Tournaments`. -/
structure Tournaments where
  per_quarter_revenue : ℚ
  sponsorship_share : ℚ
deriving DecidableEq

/-- engine/models.py `Retail`. -/
structure Retail where
  monthly_sales : ℚ
  gross_margin : ℚ
  revenue_share : ℚ
deriving DecidableEq

/-- engine/models.py `MemberPlans`. -/
structure MemberPlans where
  community_prime_pp : ℚ
  community_off_pp : ℚ
  player_prime_pp : ℚ
  player_off_pp : ℚ
  pro_prime_pp : ℚ
  pro_off_pp : ℚ
  players_per_court : ℤ
  community_monthly_fee : ℚ
  player_monthly_fee : ℚ
  pro_monthly_fee : ℚ
deriving DecidableEq

/-- engine/models.py `LeagueDiscounts`. -/
structure LeagueDiscounts where
  community_pct : ℚ
  player_pct : ℚ
  pro_pct : ℚ
deriving DecidableEq

/-- engine/models.py `LeagueParticipants`. -/
structure LeagueParticipants where
  member_share : ℚ
  use_overall_member_mix : Bool
  pct_community : ℚ
  pct_player : ℚ
  pct_pro : ℚ
deriving DecidableEq

/-- engine/models.py `MemberMix`. -/
structure MemberMix where
  pct_community : ℚ
  pct_player : ℚ
  pct_pro : ℚ
deriving DecidableEq

/-- engine/models.py `OpenPlay`. -/
structure OpenPlay where
  util_prime : ℚ
  util_off : ℚ
  member_share_prime : ℚ
  member_share_off : ℚ
deriving DecidableEq

/-- engine/models.py `GrowthConfig` (the `start_date` and `churn_monthly`
fields are not read by any verified computation and are omitted). -/
structure GrowthConfig where
  months : ℕ
  K : ℤ
  r : ℚ
  t_mid : ℤ
  start_members : ℤ
deriving DecidableEq

/-- engine/models.py `Seasonality`: two 12-tuples, modelled as functions. -/
structure Seasonality where
  weeks_per_month : Fin 12 → ℚ
  league_week_fractions : Fin 12 → ℚ

/-- engine/models.py `CostsConfig`. -/
structure CostsConfig where
  fixed_monthly_base : ℚ
  fixed_inflation_annual : ℚ
  variable_pct_of_variable_rev : ℚ
  staff_cost_per_utilized_ch : ℚ
  rent_monthly : ℚ
  rent_abatement_months : ℤ
  rent_escalator_pct : ℚ
deriving DecidableEq

/-- engine/models.py `FinanceConfig`.

The fields from `opex_allocations` down are read by engine/statements.py
(`cfg.finance.opex_allocations['payroll']`, `payroll_split_salary_pct`,
`payroll_split_taxes_pct`, `state_tax_rate`, `local_tax_rate`) but are
absent from the `FinanceConfig` dataclass in engine/models.py.
Modelled from the spec: the Statement Builder's opex allocation and
state/local tax split (spec §4.8) and its callers (app.py), which pass
these as plain configuration numbers.  Only the `payroll` entry of
`opex_allocations` influences control flow (the labor double-count
guard), so it is modelled as the single rational `opex_payroll_share`. -/
structure FinanceConfig where
  loan_amount : ℚ
  apr : ℚ
  term_years : ℤ
  wc_reserve_start : ℚ
  leasehold_improvements : ℚ
  equipment : ℚ
  depreciation_years_leasehold : ℤ
  depreciation_years_equipment : ℤ
  corporate_tax_rate : ℚ
  nol_carryforward_start : ℚ
  opex_payroll_share : ℚ
  payroll_split_salary_pct : ℚ
  payroll_split_taxes_pct : ℚ
  state_tax_rate : ℚ
  local_tax_rate : ℚ
deriving DecidableEq

/-- engine/models.py `Config` (the dataclass after `__post_init__` has
filled every `None` component; the utilization-solver step of
`__post_init__` is modelled separately as `config_post_init`). -/
structure Config where
  facility : Facility
  prime : PrimeWindow
  pricing : Pricing
  league : LeagueConfig
  corp : CorpConfig
  tourneys : Tournaments
  retail : Retail
  member_plans : MemberPlans
  league_discounts : LeagueDiscounts
  league_participants : LeagueParticipants
  member_mix : MemberMix
  openplay : OpenPlay
  growth : GrowthConfig
  seasonality : Seasonality
  costs : CostsConfig
  finance : FinanceConfig

/-! ## Schedule geometry (engine/schedule.py) -/

/-- engine/schedule.py `total_court_hours_week`. -/
def total_court_hours_week (fac : Facility) : ℚ :=
  (fac.courts : ℚ) * fac.hours_per_day * 7

/-- engine/schedule.py `prime_hours_week`. -/
def prime_hours_week (fac : Facility) (win : PrimeWindow) : ℚ :=
  let mon_thu_h := max 0 (win.mon_thu_end - win.mon_thu_start) * 4
  let fri_h := max 0 (win.fri_end - win.fri_start) * 1
  let wknd_h := win.weekend_morning_hours * 2
  (mon_thu_h + fri_h + wknd_h) * (fac.courts : ℚ)

/-- engine/schedule.py `blocks_per_window` (total model; the Python float
division raises `ZeroDivisionError` iff the block length is zero, which is
tracked by the callers' side conditions). -/
def blocks_per_window (window_h : ℚ) (session_len_h : ℚ) (buffer_min : ℤ) : ℤ :=
  let block_h := session_len_h + (buffer_min : ℚ) / 60
  ⌊window_h / block_h⌋

/-- engine/schedule.py `weekly_league_blocks`. -/
def weekly_league_blocks (win : PrimeWindow) (lg : LeagueConfig) : ℤ :=
  let mon_thu_w := max 0 (win.mon_thu_end - win.mon_thu_start)
  let fri_w := max 0 (win.fri_end - win.fri_start)
  let blk_mon_thu := blocks_per_window mon_thu_w lg.session_len_h lg.buffer_min
  let blk_fri := blocks_per_window fri_w lg.session_len_h lg.buffer_min
  let blk_wknd := blocks_per_window win.weekend_morning_hours lg.session_len_h lg.buffer_min
  let mon_thu_nights := min lg.weeknights 4
  let fri_nights := max 0 (lg.weeknights - mon_thu_nights)
  mon_thu_nights * blk_mon_thu + fri_nights * blk_fri + lg.weekend_morns * blk_wknd

/-- engine/schedule.py `league_court_hours_week`. -/
def league_court_hours_week (win : PrimeWindow) (lg : LeagueConfig) : ℚ :=
  let block_h := lg.session_len_h + (lg.buffer_min : ℚ) / 60
  (weekly_league_blocks win lg : ℚ) * block_h * (lg.courts_used : ℚ)

/-- engine/schedule.py `engine_prime_share`. -/
def engine_prime_share (cfg : Config) : ℚ :=
  let prime_ch := prime_hours_week cfg.facility cfg.prime
  let total_ch := total_court_hours_week cfg.facility
  if 0 < total_ch then prime_ch / total_ch else 0

/-- The prime window with every negative window length replaced by 0:
the comparison object of the claim "negative windows clamp to 0". -/
def clamp_window (win : PrimeWindow) : PrimeWindow :=
  { mon_thu_start := 0
    mon_thu_end := max 0 (win.mon_thu_end - win.mon_thu_start)
    fri_start := 0
    fri_end := max 0 (win.fri_end - win.fri_start)
    weekend_morning_hours := max 0 win.weekend_morning_hours }

/-! ## Utilization solver (engine/utilization.py) -/

/-- The warning string returned by `solve_offpeak_util`, as a tag carrying
the data interpolated into the Python message. -/
inductive UtilWarning where
  | noWarning : UtilWarning
  | primeShareFull : UtilWarning
  | belowMin (unclamped : ℚ) : UtilWarning
  | aboveMax (unclamped : ℚ) : UtilWarning
deriving DecidableEq

/-- engine/utilization.py `solve_offpeak_util`. -/
def solve_offpeak_util (overall_target prime_util prime_share : ℚ) :
    ℚ × UtilWarning :=
  if 1 ≤ prime_share then (0, .primeShareFull)
  else
    let offpeak_util := (overall_target - prime_share * prime_util) / (1 - prime_share)
    if offpeak_util < 0.45 then (0.45, .belowMin offpeak_util)
    else if 0.80 < offpeak_util then (0.80, .aboveMax offpeak_util)
    else (offpeak_util, .noWarning)

/-- engine/utilization.py `compute_overall_utilization`. -/
def compute_overall_utilization (prime_util offpeak_util prime_share : ℚ) : ℚ :=
  prime_share * prime_util + (1 - prime_share) * offpeak_util

/-- engine/models.py `Config.__post_init__`: wires the utilization solver,
overwriting `openplay.util_off` with the solved value for a 73% overall
target. -/
def config_post_init (cfg : Config) : Config :=
  let prime_share := engine_prime_share cfg
  let offpeak_util := (solve_offpeak_util 0.73 cfg.openplay.util_prime prime_share).1
  { cfg with openplay := { cfg.openplay with util_off := offpeak_util } }

/-! ## Capacity allocator (engine/allocation.py) -/

/-- The dict returned by engine/allocation.py `weekly_allocation`. -/
structure WeeklyAllocation where
  prime_ch : ℚ
  off_ch : ℚ
  league_ch : ℚ
  open_prime_ch : ℚ
  open_off_ch : ℚ
deriving DecidableEq

/-- engine/allocation.py `weekly_allocation`, computation part (the values
computed before the asserts are checked). -/
def weekly_allocation_total (fac : Facility) (win : PrimeWindow) (lg : LeagueConfig)
    (corp_prime_ch_wk corp_off_ch_wk tourney_prime_ch_wk tourney_off_ch_wk : ℚ) :
    WeeklyAllocation :=
  let prime_ch := prime_hours_week fac win
  let total_ch := total_court_hours_week fac
  let off_ch := total_ch - prime_ch
  let league_ch := league_court_hours_week win lg
  let open_prime := max 0 (prime_ch - league_ch - corp_prime_ch_wk - tourney_prime_ch_wk)
  let open_off := max 0 (off_ch - corp_off_ch_wk - tourney_off_ch_wk)
  { prime_ch := prime_ch, off_ch := off_ch, league_ch := league_ch,
    open_prime_ch := open_prime, open_off_ch := open_off }

/-- engine/allocation.py `weekly_allocation`: `none` models a raise — a
`ZeroDivisionError` from `blocks_per_window` when the league block length
is zero, or an `AssertionError`.  Note the asserts test the already
clamped `open_prime`/`open_off` values, exactly as the source does. -/
def weekly_allocation (fac : Facility) (win : PrimeWindow) (lg : LeagueConfig)
    (corp_prime_ch_wk corp_off_ch_wk tourney_prime_ch_wk tourney_off_ch_wk : ℚ) :
    Option WeeklyAllocation :=
  if lg.session_len_h + (lg.buffer_min : ℚ) / 60 = 0 then none
  else
    let a := weekly_allocation_total fac win lg
      corp_prime_ch_wk corp_off_ch_wk tourney_prime_ch_wk tourney_off_ch_wk
    if a.league_ch ≤ a.prime_ch + 1e-6 then
      if -1e-6 ≤ a.open_prime_ch ∧ -1e-6 ≤ a.open_off_ch then some a else none
    else none

/-! ## League capacity auto-fitter (engine/league_capacity.py) -/

/-- The warning strings appended by `derive_league_capacity`, as tags. -/
inductive FitWarning where
  | autoFitted : FitWarning
  | reducedCourts : FitWarning
  | reducedFriday : FitWarning
  | reducedMonThu : FitWarning
  | reducedWeekend : FitWarning
deriving DecidableEq

/-- engine/league_capacity.py `LeagueCapacityResult`. -/
structure LeagueCapacityResult where
  weekly_blocks : ℤ
  blocks_mon_thu : ℤ
  blocks_fri : ℤ
  blocks_weekend : ℤ
  courts_used : ℤ
  league_ch_week : ℚ
  prime_ch_week : ℚ
  fitted : Bool
  warnings : List FitWarning
deriving DecidableEq

/-- engine/league_capacity.py `calculate_blocks_per_window` (total model;
the Python float division raises `ZeroDivisionError` iff the block length
is zero, tracked by `derive_league_capacity`). -/
def calculate_blocks_per_window (window_hours session_len_h : ℚ) (buffer_min : ℤ) : ℤ :=
  let block_len_h := session_len_h + (buffer_min : ℚ) / 60
  ⌊window_hours / block_len_h⌋

/-- One `while c > floor and league(c) > prime: c -= 1` loop of the
auto-fit reducer, with enough fuel to run to completion. -/
def reduce_while_aux (league_of : ℤ → ℚ) (prime_ch : ℚ) (lo : ℤ) :
    ℕ → ℤ → ℤ
  | 0, c => c
  | fuel + 1, c =>
    if lo < c ∧ prime_ch < league_of c then
      reduce_while_aux league_of prime_ch lo fuel (c - 1)
    else c

/-- One `while c > lo and league(c) > prime: c -= 1` loop of the
auto-fit reducer (engine/league_capacity.py stages 1-4). -/
def reduce_while (league_of : ℤ → ℚ) (prime_ch : ℚ) (lo : ℤ) (c : ℤ) : ℤ :=
  reduce_while_aux league_of prime_ch lo (c - lo).toNat c

/-- Stage 1 of the auto-fit reducer: `while courts_used > 2 and
league_ch_week > prime_ch_week: courts_used -= 1`. -/
def fit_courts_used (weekly_blocks : ℤ) (block_len_h prime_ch_week : ℚ)
    (courts_used : ℤ) : ℤ :=
  reduce_while (fun c => (weekly_blocks : ℚ) * block_len_h * (c : ℚ))
    prime_ch_week 2 courts_used

/-- Stage 2 of the auto-fit reducer: `while blocks_fri > 0 and
league_ch_week > prime_ch_week: blocks_fri -= 1` (recomputing
`weekly_blocks` and `league_ch_week` each iteration). -/
def fit_blocks_fri (blocks_mon_thu blocks_weekend : ℤ)
    (block_len_h prime_ch_week : ℚ) (courts_used blocks_fri : ℤ) : ℤ :=
  reduce_while
    (fun b => ((4 * blocks_mon_thu + 1 * b + 2 * blocks_weekend : ℤ) : ℚ) *
      block_len_h * (courts_used : ℚ))
    prime_ch_week 0 blocks_fri

/-- Stage 3 of the auto-fit reducer: `while blocks_mon_thu > 0 and
league_ch_week > prime_ch_week: blocks_mon_thu -= 1`. -/
def fit_blocks_mon_thu (blocks_fri blocks_weekend : ℤ)
    (block_len_h prime_ch_week : ℚ) (courts_used blocks_mon_thu : ℤ) : ℤ :=
  reduce_while
    (fun b => ((4 * b + 1 * blocks_fri + 2 * blocks_weekend : ℤ) : ℚ) *
      block_len_h * (courts_used : ℚ))
    prime_ch_week 0 blocks_mon_thu

/-- Stage 4 of the auto-fit reducer: `while blocks_weekend > 0 and
league_ch_week > prime_ch_week: blocks_weekend -= 1`. -/
def fit_blocks_weekend (blocks_mon_thu blocks_fri : ℤ)
    (block_len_h prime_ch_week : ℚ) (courts_used blocks_weekend : ℤ) : ℤ :=
  reduce_while
    (fun b => ((4 * blocks_mon_thu + 1 * blocks_fri + 2 * b : ℤ) : ℚ) *
      block_len_h * (courts_used : ℚ))
    prime_ch_week 0 blocks_weekend

/-- engine/league_capacity.py `derive_league_capacity`, computation part
(everything after the `ZeroDivisionError` check). -/
def derive_league_capacity_total (prime : PrimeWindow) (league : LeagueConfig)
    (facility : Facility) : LeagueCapacityResult :=
  let block_len_h := league.session_len_h + (league.buffer_min : ℚ) / 60
  let mon_thu_hours := prime.mon_thu_end - prime.mon_thu_start
  let fri_hours := prime.fri_end - prime.fri_start
  let weekend_hours := prime.weekend_morning_hours
  let blocks_mon_thu := calculate_blocks_per_window mon_thu_hours league.session_len_h league.buffer_min
  let blocks_fri := calculate_blocks_per_window fri_hours league.session_len_h league.buffer_min
  let blocks_weekend := calculate_blocks_per_window weekend_hours league.session_len_h league.buffer_min
  let weekly_blocks := 4 * blocks_mon_thu + 1 * blocks_fri + 2 * blocks_weekend
  let prime_ch_week := (facility.courts : ℚ) * (4 * mon_thu_hours + 1 * fri_hours + 2 * weekend_hours)
  let courts_used := league.courts_used
  let league_ch_week := (weekly_blocks : ℚ) * block_len_h * (courts_used : ℚ)
  if prime_ch_week < league_ch_week then
    -- Step 1: reduce courts_used (min 2)
    let cu := fit_courts_used weekly_blocks block_len_h prime_ch_week courts_used
    let lg1 := (weekly_blocks : ℚ) * block_len_h * (cu : ℚ)
    if lg1 ≤ prime_ch_week then
      { weekly_blocks := weekly_blocks, blocks_mon_thu := blocks_mon_thu,
        blocks_fri := blocks_fri, blocks_weekend := blocks_weekend,
        courts_used := cu, league_ch_week := lg1, prime_ch_week := prime_ch_week,
        fitted := true, warnings := [.autoFitted, .reducedCourts] }
    else
      -- Step 2: reduce Friday blocks
      let bf := fit_blocks_fri blocks_mon_thu blocks_weekend block_len_h
        prime_ch_week cu blocks_fri
      let wb2 := 4 * blocks_mon_thu + 1 * bf + 2 * blocks_weekend
      let lg2 := (wb2 : ℚ) * block_len_h * (cu : ℚ)
      if lg2 ≤ prime_ch_week then
        { weekly_blocks := wb2, blocks_mon_thu := blocks_mon_thu,
          blocks_fri := bf, blocks_weekend := blocks_weekend,
          courts_used := cu, league_ch_week := lg2, prime_ch_week := prime_ch_week,
          fitted := true, warnings := [.autoFitted, .reducedFriday] }
      else
        -- Step 3: reduce Mon-Thu blocks
        let bmt := fit_blocks_mon_thu bf blocks_weekend block_len_h
          prime_ch_week cu blocks_mon_thu
        let wb3 := 4 * bmt + 1 * bf + 2 * blocks_weekend
        let lg3 := (wb3 : ℚ) * block_len_h * (cu : ℚ)
        if lg3 ≤ prime_ch_week then
          { weekly_blocks := wb3, blocks_mon_thu := bmt,
            blocks_fri := bf, blocks_weekend := blocks_weekend,
            courts_used := cu, league_ch_week := lg3, prime_ch_week := prime_ch_week,
            fitted := true, warnings := [.autoFitted, .reducedMonThu] }
        else
          -- Step 4: reduce weekend blocks
          let bw := fit_blocks_weekend bmt bf block_len_h prime_ch_week cu blocks_weekend
          let wb4 := 4 * bmt + 1 * bf + 2 * bw
          let lg4 := (wb4 : ℚ) * block_len_h * (cu : ℚ)
          { weekly_blocks := wb4, blocks_mon_thu := bmt,
            blocks_fri := bf, blocks_weekend := bw,
            courts_used := cu, league_ch_week := lg4, prime_ch_week := prime_ch_week,
            fitted := true, warnings := [.autoFitted, .reducedWeekend] }
  else
    { weekly_blocks := weekly_blocks, blocks_mon_thu := blocks_mon_thu,
      blocks_fri := blocks_fri, blocks_weekend := blocks_weekend,
      courts_used := courts_used, league_ch_week := league_ch_week,
      prime_ch_week := prime_ch_week, fitted := true, warnings := [] }

/-- engine/league_capacity.py `derive_league_capacity`: `none` models the
`ZeroDivisionError` raised by `calculate_blocks_per_window` when the block
length `session_len_h + buffer_min/60` is zero. -/
def derive_league_capacity (prime : PrimeWindow) (league : LeagueConfig)
    (facility : Facility) : Option LeagueCapacityResult :=
  if league.session_len_h + (league.buffer_min : ℚ) / 60 = 0 then none
  else some (derive_league_capacity_total prime league facility)

/-! ## Loan amortization (engine/finance.py) -/

/-- engine/finance.py `monthly_payment`. -/
def monthly_payment (principal apr : ℚ) (term_years : ℤ) : ℚ :=
  let r := apr / 12
  let n := term_years * 12
  if r = 0 then principal / (n : ℚ)
  else principal * (r * (1 + r) ^ n) / ((1 + r) ^ n - 1)

/-- The running balance of engine/finance.py `amortization_schedule`:
`amort_balance p apr ty m` is `bal` after `m` loop iterations. -/
def amort_balance (principal apr : ℚ) (term_years : ℤ) : ℕ → ℚ
  | 0 => principal
  | m + 1 =>
    let pmt := monthly_payment principal apr term_years
    let bal := amort_balance principal apr term_years m
    let interest := bal * (apr / 12)
    let principal_pay := max 0 (pmt - interest)
    max 0 (bal - principal_pay)

/-- One row of engine/finance.py `amortization_schedule`. -/
structure AmortRow where
  payment : ℚ
  interest : ℚ
  principal : ℚ
  balance : ℚ
deriving DecidableEq

/-- Row `m` (0-based) of engine/finance.py `amortization_schedule`. -/
def amort_row (principal apr : ℚ) (term_years : ℤ) (m : ℕ) : AmortRow :=
  let pmt := monthly_payment principal apr term_years
  let bal := amort_balance principal apr term_years m
  let interest := bal * (apr / 12)
  let principal_pay := max 0 (pmt - interest)
  { payment := pmt, interest := interest, principal := principal_pay,
    balance := max 0 (bal - principal_pay) }

/-- engine/finance.py `amortization_schedule`. -/
def amortization_schedule (principal apr : ℚ) (term_years : ℤ) (months : ℕ) :
    List AmortRow :=
  (List.range months).map (amort_row principal apr term_years)

/-! ## Capital structure (engine/capital.py) -/

/-- engine/capital.py `CapitalStructure`. -/
structure CapitalStructure where
  leasehold_improvements : ℚ
  equipment : ℚ
  ffe_signage : ℚ
  pre_opening : ℚ
  working_capital : ℚ
  contingency : ℚ
  total_uses : ℚ
  ti_allowance : ℚ
  owner_equity : ℚ
  sba_loan : ℚ
  total_sources : ℚ
  balanced : Bool
  difference : ℚ
deriving DecidableEq

/-- engine/capital.py `calculate_capital_structure`. -/
def calculate_capital_structure (leasehold_improvements equipment ffe_signage
    pre_opening working_capital contingency_pct ti_per_sf square_feet
    owner_equity : ℚ) : CapitalStructure :=
  let contingency := leasehold_improvements * contingency_pct
  let total_uses := leasehold_improvements + equipment + ffe_signage +
    pre_opening + working_capital + contingency
  let ti_allowance := ti_per_sf * square_feet
  let sba_loan := max 0 (total_uses - ti_allowance - owner_equity)
  let total_sources := ti_allowance + owner_equity + sba_loan
  let difference := |total_sources - total_uses|
  { leasehold_improvements := leasehold_improvements, equipment := equipment,
    ffe_signage := ffe_signage, pre_opening := pre_opening,
    working_capital := working_capital, contingency := contingency,
    total_uses := total_uses, ti_allowance := ti_allowance,
    owner_equity := owner_equity, sba_loan := sba_loan,
    total_sources := total_sources, balanced := decide (difference < 1),
    difference := difference }

/-- engine/capital.py `compute_loan_to_balance`. -/
def compute_loan_to_balance (finance_config : FinanceConfig) : ℚ :=
  let leasehold := finance_config.leasehold_improvements
  let equipment := finance_config.equipment
  let pre_opening : ℚ := 50000
  let working_capital := finance_config.wc_reserve_start
  let contingency := leasehold * 0.10
  let total_uses := leasehold + equipment + pre_opening + working_capital + contingency
  let ti_allowance : ℚ := 25.0 * 17139
  let owner_equity : ℚ := 200000
  max 0 (total_uses - ti_allowance - owner_equity)

/-! ## Tiered revenue (engine/revenue.py) -/

/-- engine/revenue.py `per_court_from_per_person`. -/
def per_court_from_per_person (rate_pp : ℚ) (players_per_court : ℤ) : ℚ :=
  rate_pp * (players_per_court : ℚ)

/-- engine/revenue.py `court_rental_revenue_week_tiered` (the returned
revenue; the debug dict repeats intermediate values and is omitted). -/
def court_rental_revenue_week_tiered (open_prime_ch_wk open_off_ch_wk
    util_prime util_off member_share_prime member_share_off : ℚ)
    (member_mix : MemberMix) (member_plans : MemberPlans)
    (nm_prime_per_court nm_off_per_court : ℚ) : ℚ :=
  let pc := member_plans.players_per_court
  let util_prime_ch := open_prime_ch_wk * util_prime
  let util_off_ch := open_off_ch_wk * util_off
  let mem_prime_ch := util_prime_ch * member_share_prime
  let mem_off_ch := util_off_ch * member_share_off
  let nm_prime_ch := util_prime_ch - mem_prime_ch
  let nm_off_ch := util_off_ch - mem_off_ch
  let rev_mem_prime :=
    mem_prime_ch * member_mix.pct_community * per_court_from_per_person member_plans.community_prime_pp pc +
    mem_prime_ch * member_mix.pct_player * per_court_from_per_person member_plans.player_prime_pp pc +
    mem_prime_ch * member_mix.pct_pro * per_court_from_per_person member_plans.pro_prime_pp pc
  let rev_mem_off :=
    mem_off_ch * member_mix.pct_community * per_court_from_per_person member_plans.community_off_pp pc +
    mem_off_ch * member_mix.pct_player * per_court_from_per_person member_plans.player_off_pp pc +
    mem_off_ch * member_mix.pct_pro * per_court_from_per_person member_plans.pro_off_pp pc
  let rev_nm_prime := nm_prime_ch * nm_prime_per_court
  let rev_nm_off := nm_off_ch * nm_off_per_court
  rev_mem_prime + rev_mem_off + rev_nm_prime + rev_nm_off

/-- engine/revenue.py `weighted_member_league_price`. -/
def weighted_member_league_price (base_price : ℚ) (discounts : LeagueDiscounts)
    (mix : MemberMix) : ℚ :=
  base_price * (1 - discounts.community_pct) * mix.pct_community +
  base_price * (1 - discounts.player_pct) * mix.pct_player +
  base_price * (1 - discounts.pro_pct) * mix.pct_pro

/-- engine/revenue.py `league_weekly_slots`. -/
def league_weekly_slots (lg : LeagueConfig) (weekly_blocks : ℤ) : ℤ :=
  weekly_blocks * lg.courts_used * lg.players_per_court

/-- engine/revenue.py `corporate_revenue_year` (`corp` always has the
`extra_events_per_year` attribute, so the `hasattr` test succeeds). -/
def corporate_revenue_year (corp : CorpConfig) (prime : Bool) : ℚ :=
  let rate := if prime then corp.prime_rate_per_court else corp.off_rate_per_court
  let ch_per_event := (corp.courts_used : ℚ) * corp.hours_per_event
  let total_events_per_year : ℤ :=
    corp.events_per_month * 12 + if prime then 0 else corp.extra_events_per_year
  (total_events_per_year : ℚ) * ch_per_event * rate

/-- engine/revenue.py `tournaments_revenue_year`. -/
def tournaments_revenue_year (t : Tournaments) : ℚ :=
  4 * t.per_quarter_revenue * t.sponsorship_share

/-- engine/revenue.py `retail_revenue_year`. -/
def retail_revenue_year (r : Retail) : ℚ :=
  12 * r.monthly_sales * r.gross_margin * r.revenue_share

/-! ## Rent (engine/rent.py) -/

/-- engine/rent.py `calculate_monthly_rent`. -/
def calculate_monthly_rent (month : ℕ) (base_rent_psf_nnn cam_psf square_feet
    annual_escalator : ℚ) (abatement_months : ℤ) : ℚ :=
  let annual_rent := (base_rent_psf_nnn + cam_psf) * square_feet
  let base_monthly := annual_rent / 12
  if (month : ℤ) < abatement_months then 0
  else
    let year := month / 12
    if 0 < year then base_monthly * (1 + annual_escalator) ^ year
    else base_monthly

/-- The dict returned by engine/rent.py `calculate_total_fixed_opex`. -/
structure FixedOpex where
  rent : ℚ
  non_rent : ℚ
  total : ℚ
deriving DecidableEq

/-- engine/rent.py `calculate_total_fixed_opex` (with the LOI defaults
`base_rent_psf_nnn=22.50`, `cam_psf=3.43`, `square_feet=17139` that its
caller in engine/projections.py does not override). -/
def calculate_total_fixed_opex (month : ℕ) (non_rent_fixed : ℚ)
    (annual_escalator : ℚ) (rent_abatement_months : ℤ)
    (non_rent_inflation : ℚ) : FixedOpex :=
  let rent := calculate_monthly_rent month 22.50 3.43 17139 annual_escalator
    rent_abatement_months
  let year := month / 12
  let non_rent_inflated := non_rent_fixed * (1 + non_rent_inflation) ^ year
  { rent := rent, non_rent := non_rent_inflated, total := rent + non_rent_inflated }

/-! ## Compute orchestrator (engine/compute.py) -/

/-- engine/compute.py: `effective_league = replace(cfg.league,
courts_used=league_cap.courts_used)` (a no-op copy when the auto-fitter
left `courts_used` unchanged). -/
def compute_effective_league (cfg : Config) : LeagueConfig :=
  { cfg.league with
    courts_used := (derive_league_capacity_total cfg.prime cfg.league cfg.facility).courts_used }

/-- engine/compute.py: the `weekly_allocation` call (corporate/tournament
hours default to 0), computation part. -/
def compute_alloc (cfg : Config) : WeeklyAllocation :=
  weekly_allocation_total cfg.facility cfg.prime (compute_effective_league cfg) 0 0 0 0

/-- `compute` reaches its return without raising: the `weekly_allocation`
call (which also performs the only division that `derive_league_capacity`
performs) returns instead of raising. -/
def compute_ok (cfg : Config) : Prop :=
  weekly_allocation cfg.facility cfg.prime (compute_effective_league cfg) 0 0 0 0 =
    some (compute_alloc cfg)

/-- engine/compute.py: the tier mix used for league pricing. -/
def compute_tier_mix (cfg : Config) : MemberMix :=
  if cfg.league_participants.use_overall_member_mix then cfg.member_mix
  else { pct_community := cfg.league_participants.pct_community,
         pct_player := cfg.league_participants.pct_player,
         pct_pro := cfg.league_participants.pct_pro }

/-- engine/compute.py: `slots_wk = league_weekly_slots(effective_league, blocks)`. -/
def compute_slots_wk (cfg : Config) : ℤ :=
  league_weekly_slots (compute_effective_league cfg)
    (derive_league_capacity_total cfg.prime cfg.league cfg.facility).weekly_blocks

/-- engine/compute.py: `filled_slots = slots_wk * cfg.league.fill_rate`. -/
def compute_filled_slots (cfg : Config) : ℚ :=
  (compute_slots_wk cfg : ℚ) * cfg.league.fill_rate

/-- engine/compute.py: `avg_slot_price` for league slots. -/
def compute_avg_slot_price (cfg : Config) : ℚ :=
  let filled_slots := compute_filled_slots cfg
  let member_slots := filled_slots * cfg.league_participants.member_share
  let nonmember_slots := filled_slots - member_slots
  let disc_member_price := weighted_member_league_price
    cfg.league.price_prime_slot_6wk cfg.league_discounts (compute_tier_mix cfg)
  (member_slots * disc_member_price + nonmember_slots * cfg.league.price_prime_slot_6wk) /
    max 1e-9 filled_slots

/-- engine/compute.py: `weekly_league_rev = filled_slots * (avg_slot_price / 6.0)`. -/
def compute_weekly_league_rev (cfg : Config) : ℚ :=
  compute_filled_slots cfg * (compute_avg_slot_price cfg / 6)

/-- engine/compute.py: `league_rev_year = weekly_league_rev * cfg.league.active_weeks`. -/
def compute_league_rev_year (cfg : Config) : ℚ :=
  compute_weekly_league_rev cfg * (cfg.league.active_weeks : ℚ)

/-- engine/compute.py: the tiered court-rental revenue per week. -/
def compute_court_rev_wk (cfg : Config) : ℚ :=
  let alloc := compute_alloc cfg
  court_rental_revenue_week_tiered alloc.open_prime_ch alloc.open_off_ch
    cfg.openplay.util_prime cfg.openplay.util_off
    cfg.openplay.member_share_prime cfg.openplay.member_share_off
    cfg.member_mix cfg.member_plans
    cfg.pricing.nm_prime_per_court cfg.pricing.nm_off_per_court

/-- engine/compute.py: utilized court-hours per year. -/
def compute_utilized_ch_year (cfg : Config) : ℚ :=
  let alloc := compute_alloc cfg
  let utilized_prime_wk := alloc.open_prime_ch * cfg.openplay.util_prime
  let utilized_offpeak_wk := alloc.open_off_ch * cfg.openplay.util_off
  let utilized_league_wk := alloc.league_ch
  (utilized_prime_wk + utilized_offpeak_wk + utilized_league_wk) * 52

/-- The slice of the dict returned by engine/compute.py `compute` that the
projection engine reads (weekly/annual revenue by stream and utilized
court-hours). -/
structure ComputeResult where
  weekly_league_blocks : ℤ
  weekly_league_rev : ℚ
  weekly_court_rev : ℚ
  annual_league_rev : ℚ
  annual_court_rev : ℚ
  annual_corp_rev : ℚ
  annual_tourney_rev : ℚ
  annual_retail_rev : ℚ
  annual_variable_rev : ℚ
  utilized_ch_year : ℚ
  alloc_weekly : WeeklyAllocation
deriving DecidableEq

/-- engine/compute.py `compute` (computation; `compute_ok` tracks the
`weekly_allocation` asserts and divisions that can raise). -/
def compute (cfg : Config) : ComputeResult :=
  let court_rev_wk := compute_court_rev_wk cfg
  let court_rev_year := court_rev_wk * 52
  let league_rev_year := compute_league_rev_year cfg
  let corp_rev_year := corporate_revenue_year cfg.corp false
  let tour_rev_year := tournaments_revenue_year cfg.tourneys
  let retail_rev_year := retail_revenue_year cfg.retail
  { weekly_league_blocks :=
      (derive_league_capacity_total cfg.prime cfg.league cfg.facility).weekly_blocks
    weekly_league_rev := compute_weekly_league_rev cfg
    weekly_court_rev := court_rev_wk
    annual_league_rev := league_rev_year
    annual_court_rev := court_rev_year
    annual_corp_rev := corp_rev_year
    annual_tourney_rev := tour_rev_year
    annual_retail_rev := retail_rev_year
    annual_variable_rev := court_rev_year + league_rev_year + corp_rev_year +
      tour_rev_year + retail_rev_year
    utilized_ch_year := compute_utilized_ch_year cfg
    alloc_weekly := compute_alloc cfg }

/-! ## Growth and projections (engine/projections.py) -/

/-- Python 3 `round` (round-half-to-even) on an exact rational. -/
def python_round (x : ℚ) : ℤ :=
  if x - ⌊x⌋ < 1/2 then ⌊x⌋
  else if 1/2 < x - ⌊x⌋ then ⌊x⌋ + 1
  else if Even ⌊x⌋ then ⌊x⌋ else ⌊x⌋ + 1

/-- Python 3 `round` (round-half-to-even) on a real number. -/
noncomputable def python_round_real (x : ℝ) : ℤ :=
  if x - ⌊x⌋ < 1/2 then ⌊x⌋
  else if 1/2 < x - ⌊x⌋ then ⌊x⌋ + 1
  else if Even ⌊x⌋ then ⌊x⌋ else ⌊x⌋ + 1

/-- engine/projections.py `logistic_members`. -/
noncomputable def logistic_members (t : ℕ) (K : ℤ) (r : ℚ) (t_mid start_members : ℤ) : ℝ :=
  let base := (K : ℝ) / (1 + Real.exp (-(r : ℝ) * ((t : ℝ) - (t_mid : ℝ))))
  min (K : ℝ) (max (start_members : ℝ) base)

/-- engine/projections.py: `members = round(logistic_members(t, K, r, t_mid,
start_members))`. -/
noncomputable def members_of (g : GrowthConfig) (t : ℕ) : ℤ :=
  python_round_real (logistic_members t g.K g.r g.t_mid g.start_members)

/-- engine/projections.py: the ramp factor `min(1.0, (t + 1) / 6.0)`. -/
def ramp_factor (t : ℕ) : ℚ :=
  min 1 (((t : ℚ) + 1) / 6)

/-- engine/projections.py: the per-month deep-copied config with league
and open-play parameters ramped toward their targets. -/
def cfg_month (cfg : Config) (t : ℕ) : Config :=
  let factor := ramp_factor t
  { cfg with
    league := { cfg.league with
      weeknights := max 1 (python_round ((cfg.league.weeknights : ℚ) * factor))
      courts_used := max 1 (python_round ((cfg.league.courts_used : ℚ) * factor))
      fill_rate := max 0.5 (0.6 + (cfg.league.fill_rate - 0.6) * factor) }
    openplay := { cfg.openplay with
      util_prime := cfg.openplay.util_prime * (0.6 + 0.4 * factor)
      util_off := cfg.openplay.util_off * (0.7 + 0.3 * factor) } }

/-- engine/projections.py `distribute_active_weeks` (the `year_index`
argument is accepted and ignored, as in the source). -/
def distribute_active_weeks (seas : Seasonality) (_year_index : ℕ) : Fin 12 → ℚ :=
  fun i => seas.league_week_fractions i * (46 / ∑ j, seas.league_week_fractions j)

/-- The slice of a month row of engine/projections.py
`build_24_month_projection` that later computations and claims read. -/
structure ProjRow where
  members : ℤ
  rev_variable : ℚ
  rev_membership : ℚ
  rev_total : ℚ
  court_rev_m : ℚ
  league_rev_m : ℚ
  corp_rev_m : ℚ
  tourney_rev_m : ℚ
  retail_rev_m : ℚ
  fixed_opex_m : ℚ
  rent_m : ℚ
  non_rent_fixed_m : ℚ
  variable_costs_m : ℚ
  staff_costs_m : ℚ
  opex_total_m : ℚ
  EBITDA_m : ℚ
  debt_service_m : ℚ
  league_weeks_m : ℚ
  weeks_in_month : ℚ
deriving DecidableEq

/-- Month `t` of engine/projections.py `build_24_month_projection`, with
the (already rounded, integral) member count passed explicitly so that
everything else is exact rational arithmetic. -/
def proj_row_core (cfg : Config) (members : ℤ) (t : ℕ) : ProjRow :=
  let wks := cfg.seasonality.weeks_per_month ⟨t % 12, Nat.mod_lt t (by omega)⟩
  let league_weeks_this_month :=
    distribute_active_weeks cfg.seasonality (if t < 12 then 0 else 1)
      ⟨t % 12, Nat.mod_lt t (by omega)⟩
  let res := compute (cfg_month cfg t)
  let court_rev_m := res.weekly_court_rev * wks
  let league_rev_m := res.weekly_league_rev * league_weeks_this_month
  let corp_rev_m := res.annual_corp_rev / 12
  let tourney_rev_m := res.annual_tourney_rev / 12
  let retail_rev_m := res.annual_retail_rev / 12
  let variable_rev_m := court_rev_m + league_rev_m + corp_rev_m + tourney_rev_m + retail_rev_m
  let comm := python_round ((members : ℚ) * cfg.member_mix.pct_community)
  let play := python_round ((members : ℚ) * cfg.member_mix.pct_player)
  let pro := members - comm - play
  let membership_rev_m := (comm : ℚ) * cfg.member_plans.community_monthly_fee +
    (play : ℚ) * cfg.member_plans.player_monthly_fee +
    (pro : ℚ) * cfg.member_plans.pro_monthly_fee
  let non_rent_fixed := cfg.costs.fixed_monthly_base - cfg.costs.rent_monthly
  let fixed_components := calculate_total_fixed_opex t non_rent_fixed
    (cfg.costs.rent_escalator_pct / 100) cfg.costs.rent_abatement_months
    cfg.costs.fixed_inflation_annual
  let fixed_m := fixed_components.total
  let utilized_ch_m := res.utilized_ch_year / 52 * wks
  let variable_costs_m := cfg.costs.variable_pct_of_variable_rev * variable_rev_m
  let staff_costs_m := cfg.costs.staff_cost_per_utilized_ch * utilized_ch_m
  let opex_m := fixed_m + variable_costs_m + staff_costs_m
  let total_revenue_m := variable_rev_m + membership_rev_m
  let ebitda_m := total_revenue_m - opex_m
  let ds := (amort_row cfg.finance.loan_amount cfg.finance.apr cfg.finance.term_years t).payment
  { members := members
    rev_variable := variable_rev_m
    rev_membership := membership_rev_m
    rev_total := total_revenue_m
    court_rev_m := court_rev_m
    league_rev_m := league_rev_m
    corp_rev_m := corp_rev_m
    tourney_rev_m := tourney_rev_m
    retail_rev_m := retail_rev_m
    fixed_opex_m := fixed_m
    rent_m := fixed_components.rent
    non_rent_fixed_m := fixed_components.non_rent
    variable_costs_m := variable_costs_m
    staff_costs_m := staff_costs_m
    opex_total_m := opex_m
    EBITDA_m := ebitda_m
    debt_service_m := ds
    league_weeks_m := league_weeks_this_month
    weeks_in_month := wks }

/-- Month `t` of engine/projections.py `build_24_month_projection`. -/
noncomputable def proj_row (cfg : Config) (t : ℕ) : ProjRow :=
  proj_row_core cfg (members_of cfg.growth t) t

/-! ## Financial statements (engine/statements.py) -/

/-- engine/statements.py `calculate_depreciation`. -/
def calculate_depreciation (cfg : Config) : ℚ :=
  cfg.finance.leasehold_improvements /
    ((cfg.finance.depreciation_years_leasehold * 12 : ℤ) : ℚ) +
  cfg.finance.equipment /
    ((cfg.finance.depreciation_years_equipment * 12 : ℤ) : ℚ)

/-- engine/statements.py: the Statement Builder's recomputed EBITDA
(`gross_profit - fixed_opex` where `gross_profit = total_revenue - cogs`
and `cogs = variable_costs + cogs_variable_labor`). -/
def statements_ebitda (row : ProjRow) : ℚ :=
  (row.rev_total - (row.variable_costs_m + row.staff_costs_m)) - row.fixed_opex_m

/-- engine/statements.py: `opex_payroll_salary` for a month row
(`non_rent_fixed * opex_allocations['payroll'] * payroll_split_salary_pct`). -/
def opex_payroll_salary (fin : FinanceConfig) (row : ProjRow) : ℚ :=
  row.non_rent_fixed_m * fin.opex_payroll_share * fin.payroll_split_salary_pct

/-- engine/statements.py: the labor double-count guard raises `ValueError`
for a month iff this proposition holds. -/
def labor_guard_fires (fin : FinanceConfig) (row : ProjRow) : Prop :=
  0 < row.staff_costs_m ∧ 0 < opex_payroll_salary fin row ∧
    |row.staff_costs_m - opex_payroll_salary fin row| < 0.01

/-- engine/statements.py: the hard EBITDA cross-check assertion passes for
a month iff this proposition holds. -/
def ebitda_assert_ok (row : ProjRow) : Prop :=
  |statements_ebitda row - row.EBITDA_m| < 1

/-- The running balance-sheet state of engine/statements.py
`build_financial_statements`. -/
structure BSState where
  accumulated_depreciation : ℚ
  debt_balance : ℚ
  nol_balance : ℚ
  retained_earnings : ℚ
  cash : ℚ
deriving DecidableEq

/-- The initial tracking variables of `build_financial_statements`. -/
def bs_init (cfg : Config) : BSState :=
  { accumulated_depreciation := 0
    debt_balance := cfg.finance.loan_amount
    nol_balance := cfg.finance.nol_carryforward_start
    retained_earnings := 0
    cash := cfg.finance.wc_reserve_start }

/-- One month of the P&L/balance-sheet loop of
`build_financial_statements`: depreciation, interest (recomputed from the
running debt balance), tax with NOL offset, net income, principal payment
and the cash/debt/retained-earnings rollforward. -/
def bs_step (fin : FinanceConfig) (dep : ℚ) (row : ProjRow) (s : BSState) : BSState :=
  let ebitda := statements_ebitda row
  let ebit := ebitda - dep
  let interest := s.debt_balance * fin.apr / 12
  let ebt := ebit - interest
  let nol_taxable :=
    if 0 < ebt ∧ 0 < s.nol_balance then
      let nol_used := min s.nol_balance ebt
      (s.nol_balance - nol_used, ebt - nol_used)
    else if 0 < ebt then (s.nol_balance, ebt)
    else (s.nol_balance + |ebt|, 0)
  let taxable_income := nol_taxable.2
  let state_tax := if 0 < taxable_income then taxable_income * fin.state_tax_rate else 0
  let federal_tax := if state_tax < taxable_income then
    (taxable_income - state_tax) * fin.corporate_tax_rate else 0
  let local_tax := if 0 < taxable_income then taxable_income * fin.local_tax_rate else 0
  let tax := state_tax + federal_tax + local_tax
  let net_income := ebt - tax
  let operating_cf := net_income + dep
  let principal_payment := row.debt_service_m - interest
  { accumulated_depreciation := s.accumulated_depreciation + dep
    debt_balance := s.debt_balance - principal_payment
    nol_balance := nol_taxable.1
    retained_earnings := s.retained_earnings + net_income
    cash := s.cash + operating_cf - principal_payment }

/-- The balance-sheet state after `t` months of
`build_financial_statements`. -/
noncomputable def bs_state (cfg : Config) : ℕ → BSState
  | 0 => bs_init cfg
  | t + 1 => bs_step cfg.finance (calculate_depreciation cfg) (proj_row cfg t) (bs_state cfg t)

/-- A balance-sheet row of engine/statements.py
`build_financial_statements`. -/
structure BSRow where
  cash : ℚ
  ppe_gross : ℚ
  ppe_net : ℚ
  total_assets : ℚ
  debt_balance : ℚ
  equity : ℚ
  total_liabilities_equity : ℚ
  check : ℚ
deriving DecidableEq

/-- Balance-sheet row `t` (0-based) of `build_financial_statements`:
end-of-month values, with the equity "plug" applied when the pre-plug
balance check drifts beyond the $1 tolerance. -/
noncomputable def bs_row (cfg : Config) (t : ℕ) : BSRow :=
  let s := bs_state cfg (t + 1)
  let ppe_gross := cfg.finance.leasehold_improvements + cfg.finance.equipment
  let ppe_net := ppe_gross - s.accumulated_depreciation
  let total_assets := s.cash + ppe_net
  let equity0 := s.retained_earnings
  let check_balance := total_assets - (s.debt_balance + equity0)
  let equity := if 1 < |check_balance| then equity0 + check_balance else equity0
  { cash := s.cash
    ppe_gross := ppe_gross
    ppe_net := ppe_net
    total_assets := total_assets
    debt_balance := s.debt_balance
    equity := equity
    total_liabilities_equity := s.debt_balance + equity
    check := |total_assets - (s.debt_balance + equity)| }

/-- engine/finance.py `monthly_payment` divides without raising. -/
def amort_defined (fin : FinanceConfig) : Prop :=
  if fin.apr / 12 = 0 then ((fin.term_years * 12 : ℤ) : ℚ) ≠ 0
  else (1 + fin.apr / 12) ^ (fin.term_years * 12) - 1 ≠ 0

/-- `build_financial_statements cfg` (and the `build_24_month_projection`
call inside it) runs to completion without raising: every division is
defined, the Y1/Y2 summary rollups can index rows 11 and 23 and take
minima of nonempty slices (so at least 24 months), each month's
`weekly_allocation` asserts pass, the EBITDA cross-check passes and the
labor double-count guard does not fire. -/
def statements_ok (cfg : Config) : Prop :=
  23 < cfg.growth.months ∧
  cfg.finance.depreciation_years_leasehold ≠ 0 ∧
  cfg.finance.depreciation_years_equipment ≠ 0 ∧
  amort_defined cfg.finance ∧
  (∑ j, cfg.seasonality.league_week_fractions j) ≠ 0 ∧
  ∀ t < cfg.growth.months, compute_ok (cfg_month cfg t) ∧
    ebitda_assert_ok (proj_row cfg t) ∧
    ¬ labor_guard_fires cfg.finance (proj_row cfg t)

open Classical in
/-- engine/statements.py `build_financial_statements`, balance-sheet part:
the list of monthly balance-sheet rows, or `none` when the Python call
raises. -/
noncomputable def build_financial_statements (cfg : Config) : Option (List BSRow) :=
  if statements_ok cfg then some ((List.range cfg.growth.months).map (bs_row cfg))
  else none

/-! ## Concrete configurations used by witnesses and counterexamples -/

/-- The default `Seasonality.weeks_per_month` tuple of engine/models.py. -/
def default_weeks_per_month : Fin 12 → ℚ :=
  fun i => if i.val = 1 ∨ i.val = 11 then 4 else 4.35

/-- The default `Seasonality.league_week_fractions` tuple of engine/models.py. -/
def default_league_week_fractions : Fin 12 → ℚ :=
  fun i => if i.val = 11 then 0.063
  else if i.val = 5 ∨ i.val = 6 ∨ i.val = 7 then 0.080
  else 0.083

/-- The engine/models.py dataclass defaults for `Config` (with the
modelled statement-builder finance fields set to the app.py defaults). -/
def default_config : Config :=
  { facility := { courts := 4, hours_per_day := 14 }
    prime := { mon_thu_start := 16, mon_thu_end := 22, fri_start := 16,
               fri_end := 21, weekend_morning_hours := 4 }
    pricing := { nm_prime_per_court := 65, nm_off_per_court := 56,
                 member_prime_per_court := 0, member_off_per_court := 0 }
    league := { session_len_h := 1.5, buffer_min := 10, weeknights := 4,
                weekend_morns := 1, courts_used := 4, players_per_court := 4,
                fill_rate := 0.90, active_weeks := 46,
                price_prime_slot_6wk := 150, price_off_slot_6wk := 100 }
    corp := { prime_rate_per_court := 200, off_rate_per_court := 170,
              events_per_month := 2, hours_per_event := 6, courts_used := 4,
              extra_events_per_year := 8 }
    tourneys := { per_quarter_revenue := 9000, sponsorship_share := 0.40 }
    retail := { monthly_sales := 3000, gross_margin := 0.20, revenue_share := 0.40 }
    member_plans := { community_prime_pp := 14, community_off_pp := 11,
                      player_prime_pp := 9, player_off_pp := 0,
                      pro_prime_pp := 0, pro_off_pp := 0, players_per_court := 4,
                      community_monthly_fee := 0, player_monthly_fee := 99,
                      pro_monthly_fee := 189 }
    league_discounts := { community_pct := 0, player_pct := 0.15, pro_pct := 0.25 }
    league_participants := { member_share := 0.30, use_overall_member_mix := true,
                             pct_community := 0.20, pct_player := 0.60, pct_pro := 0.20 }
    member_mix := { pct_community := 0.20, pct_player := 0.60, pct_pro := 0.20 }
    openplay := { util_prime := 0.95, util_off := 0.55,
                  member_share_prime := 0.60, member_share_off := 0.60 }
    growth := { months := 24, K := 350, r := 0.35, t_mid := 8, start_members := 50 }
    seasonality := { weeks_per_month := default_weeks_per_month,
                     league_week_fractions := default_league_week_fractions }
    costs := { fixed_monthly_base := 60000, fixed_inflation_annual := 0.03,
               variable_pct_of_variable_rev := 0.15,
               staff_cost_per_utilized_ch := 5, rent_monthly := 37000,
               rent_abatement_months := 0, rent_escalator_pct := 3 }
    finance := { loan_amount := 1200000, apr := 0.09, term_years := 10,
                 wc_reserve_start := 200000, leasehold_improvements := 994000,
                 equipment := 220000, depreciation_years_leasehold := 10,
                 depreciation_years_equipment := 7, corporate_tax_rate := 0.21,
                 nol_carryforward_start := 0, opex_payroll_share := 0.40,
                 payroll_split_salary_pct := 0.83, payroll_split_taxes_pct := 0.17,
                 state_tax_rate := 0.06, local_tax_rate := 0.01 } }

/-- A configuration for the balance-sheet counterexample: default in every
respect except that the prime windows are empty (so every month's
allocation is trivially consistent), the payroll opex allocation is zero
(so the labor double-count guard cannot fire) and the loan amount is
chosen so that the constant pre-plug balance-sheet imbalance
`wc_reserve_start + leasehold + equipment - loan` is exactly $1. -/
def knife_edge_config : Config :=
  { default_config with
    prime := { mon_thu_start := 16, mon_thu_end := 16, fri_start := 16,
               fri_end := 16, weekend_morning_hours := 0 }
    openplay := { util_prime := 0.95, util_off := 0.73,
                  member_share_prime := 0.60, member_share_off := 0.60 }
    finance := { default_config.finance with
      loan_amount := 1413999, opex_payroll_share := 0 } }

/-- Updating only `league_participants.member_share`. -/
def set_member_share (cfg : Config) (s : ℚ) : Config :=
  { cfg with league_participants :=
      { cfg.league_participants with member_share := s } }

/-- A configuration for the league-revenue counterexample: a one-hour
Mon-Thu prime window with one-hour league blocks, an overall member mix
that is 100% community, and a community league discount of zero (the
player and pro tiers keep their default positive discounts). -/
def empty_tier_config : Config :=
  { default_config with
    prime := { mon_thu_start := 16, mon_thu_end := 17, fri_start := 16,
               fri_end := 16, weekend_morning_hours := 0 }
    league := { default_config.league with session_len_h := 1, buffer_min := 0 }
    member_mix := { pct_community := 1, pct_player := 0, pct_pro := 0 } }

/-! ## Theorems -/

/-- C4: `solve_offpeak_util` returns exactly 0 with a warning when
`prime_share ≥ 1`; otherwise the result lies in [0.45, 0.80], equals
`(overall_target − prime_share·prime_util)/(1 − prime_share)` whenever
that value is already in the band, and a warning identifying the bound
and the unclamped value is returned exactly when clamping occurred. -/
theorem solve_offpeak_util_spec (overall_target prime_util prime_share : ℚ) :
    (1 ≤ prime_share →
      solve_offpeak_util overall_target prime_util prime_share = (0, .primeShareFull)) ∧
    (prime_share < 1 →
      (0.45 ≤ (solve_offpeak_util overall_target prime_util prime_share).1 ∧
        (solve_offpeak_util overall_target prime_util prime_share).1 ≤ 0.80) ∧
      (0.45 ≤ (overall_target - prime_share * prime_util) / (1 - prime_share) →
        (overall_target - prime_share * prime_util) / (1 - prime_share) ≤ 0.80 →
        solve_offpeak_util overall_target prime_util prime_share =
          ((overall_target - prime_share * prime_util) / (1 - prime_share), .noWarning)) ∧
      ((overall_target - prime_share * prime_util) / (1 - prime_share) < 0.45 →
        solve_offpeak_util overall_target prime_util prime_share =
          (0.45, .belowMin ((overall_target - prime_share * prime_util) / (1 - prime_share)))) ∧
      (0.80 < (overall_target - prime_share * prime_util) / (1 - prime_share) →
        solve_offpeak_util overall_target prime_util prime_share =
          (0.80, .aboveMax ((overall_target - prime_share * prime_util) / (1 - prime_share))))) := by
  constructor
  · intro h
    unfold solve_offpeak_util
    rw [if_pos h]
  · intro h
    unfold solve_offpeak_util
    rw [if_neg (not_le.mpr h)]
    dsimp only
    split_ifs with h2 h3
    · exact ⟨⟨le_rfl, by norm_num⟩,
        fun hlo _ => absurd h2 (not_lt.mpr hlo),
        fun _ => rfl,
        fun hhi => absurd h2 (not_lt.mpr (by linarith))⟩
    · exact ⟨⟨by norm_num, le_rfl⟩,
        fun _ hhi => absurd h3 (not_lt.mpr hhi),
        fun hlo => absurd hlo (not_lt.mpr (by linarith)),
        fun _ => rfl⟩
    · exact ⟨⟨not_lt.mp h2, not_lt.mp h3⟩,
        fun _ _ => rfl,
        fun hlo => absurd hlo h2,
        fun hhi => absurd hhi h3⟩

/-- C4 witness: at `prime_share = 2 ≥ 1` the solver returns 0 with the
undefined-case warning. -/
theorem solve_offpeak_util_spec_witness :
    solve_offpeak_util 0.73 0.95 2 = (0, .primeShareFull) :=
  (solve_offpeak_util_spec 0.73 0.95 2).1 (by norm_num)

/-- C5 (code bug): with a 1-court × 1 h/day facility, empty prime windows
and 100 corporate off-peak court-hours, the raw open-play figure
`off_ch − corp_off_ch − tourney_off_ch = 7 − 100 − 0` is far below −ε,
yet `weekly_allocation` returns normally with `open_off_ch` silently
clamped to 0: the asserts test the already clamped values, so they cannot
fail loudly as the claim requires. -/
theorem weekly_allocation_silently_clamps :
    weekly_allocation { courts := 1, hours_per_day := 1 }
      { mon_thu_start := 0, mon_thu_end := 0, fri_start := 0, fri_end := 0,
        weekend_morning_hours := 0 }
      { session_len_h := 1.5, buffer_min := 10, weeknights := 4,
        weekend_morns := 1, courts_used := 4, players_per_court := 4,
        fill_rate := 0.9, active_weeks := 46, price_prime_slot_6wk := 150,
        price_off_slot_6wk := 100 }
      0 100 0 0 =
      some { prime_ch := 0, off_ch := 7, league_ch := 0,
             open_prime_ch := 0, open_off_ch := 0 } ∧
    ((7 : ℚ) - 100 - 0 < -1e-6) := by
  constructor
  · simp only [weekly_allocation, weekly_allocation_total, prime_hours_week,
      total_court_hours_week, league_court_hours_week, weekly_league_blocks,
      blocks_per_window]
    norm_num [max_def]
  · norm_num

/-- C6 counterexample: with `weekend_morning_hours = -1` and empty Mon-Thu
and Friday windows, `prime_hours_week` returns −8, not the value 0 it
would return with the negative window replaced by 0, and the result is
negative: the weekend window is not clamped. -/
theorem prime_hours_week_negative_weekend :
    prime_hours_week { courts := 4, hours_per_day := 14 }
      { mon_thu_start := 0, mon_thu_end := 0, fri_start := 0, fri_end := 0,
        weekend_morning_hours := -1 } = -8 ∧
    prime_hours_week { courts := 4, hours_per_day := 14 }
      (clamp_window { mon_thu_start := 0, mon_thu_end := 0, fri_start := 0,
                      fri_end := 0, weekend_morning_hours := -1 }) = 0 ∧
    ((-8 : ℚ) < 0) := by
  refine ⟨?_, ?_, by norm_num⟩ <;> norm_num [prime_hours_week, clamp_window, max_def]

/-- C6 amended: negative Mon-Thu and Friday windows clamp to 0, so when
`weekend_morning_hours` is non-negative (it is a duration, not a
start/end difference, and is used unclamped by the source),
`prime_hours_week` equals its fully clamped value and is non-negative. -/
theorem prime_hours_week_clamps (fac : Facility) (win : PrimeWindow)
    (hc : 0 ≤ fac.courts) (hw : 0 ≤ win.weekend_morning_hours) :
    prime_hours_week fac win = prime_hours_week fac (clamp_window win) ∧
    0 ≤ prime_hours_week fac win := by
  have hcast : (0 : ℚ) ≤ (fac.courts : ℚ) := by exact_mod_cast hc
  unfold prime_hours_week clamp_window
  dsimp only
  rw [sub_zero, sub_zero]
  constructor
  · rw [max_eq_right (le_max_left (0:ℚ) _), max_eq_right (le_max_left (0:ℚ) _),
      max_eq_right hw]
  · have h1 : (0:ℚ) ≤ max 0 (win.mon_thu_end - win.mon_thu_start) * 4 :=
      mul_nonneg (le_max_left _ _) (by norm_num)
    have h2 : (0:ℚ) ≤ max 0 (win.fri_end - win.fri_start) * 1 :=
      mul_nonneg (le_max_left _ _) (by norm_num)
    have h3 : (0:ℚ) ≤ win.weekend_morning_hours * 2 :=
      mul_nonneg hw (by norm_num)
    exact mul_nonneg (by linarith) hcast

/-- C6 amended witness: the default facility and prime window. -/
theorem prime_hours_week_clamps_witness :
    prime_hours_week { courts := 4, hours_per_day := 14 }
      { mon_thu_start := 16, mon_thu_end := 22, fri_start := 16, fri_end := 21,
        weekend_morning_hours := 4 } =
      prime_hours_week { courts := 4, hours_per_day := 14 }
        (clamp_window { mon_thu_start := 16, mon_thu_end := 22, fri_start := 16,
                        fri_end := 21, weekend_morning_hours := 4 }) ∧
    0 ≤ prime_hours_week { courts := 4, hours_per_day := 14 }
      { mon_thu_start := 16, mon_thu_end := 22, fri_start := 16, fri_end := 21,
        weekend_morning_hours := 4 } :=
  prime_hours_week_clamps _ _ (by norm_num) (by norm_num)

/-- C8 counterexample: with zero leasehold/equipment the TI allowance
already covers all uses, so the computed loan is floored at 0 both before
and after adding $100 of owner equity — the loan does not decrease by
exactly $100. -/
theorem loan_floor_breaks_exact_offset :
    (calculate_capital_structure 0 0 0 50000 50000 0.10 25 17139 (200000 + 100)).sba_loan = 0 ∧
    (calculate_capital_structure 0 0 0 50000 50000 0.10 25 17139 200000).sba_loan = 0 ∧
    ¬ ((calculate_capital_structure 0 0 0 50000 50000 0.10 25 17139 (200000 + 100)).sba_loan =
        (calculate_capital_structure 0 0 0 50000 50000 0.10 25 17139 200000).sba_loan - 100) := by
  refine ⟨?_, ?_, ?_⟩ <;> norm_num [calculate_capital_structure, max_def]

/-- C8 amended: increasing owner equity by X > 0 decreases the computed
loan by exactly X, provided the decreased loan does not hit the
`max(0, ·)` floor (total uses still exceed the TI allowance plus the
increased equity). -/
theorem loan_decreases_by_equity (li equip ffe pre wc cont ti sf oe X : ℚ)
    (hX : 0 < X)
    (hfloor : ti * sf + (oe + X) ≤ li + equip + ffe + pre + wc + li * cont) :
    (calculate_capital_structure li equip ffe pre wc cont ti sf (oe + X)).sba_loan =
      (calculate_capital_structure li equip ffe pre wc cont ti sf oe).sba_loan - X := by
  unfold calculate_capital_structure
  dsimp only
  rw [max_eq_right (by linarith), max_eq_right (by linarith)]
  ring

/-- C8 amended witness: the default sources and uses with $100 more equity. -/
theorem loan_decreases_by_equity_witness :
    (calculate_capital_structure 994000 220000 0 50000 50000 0.10 25 17139
        (200000 + 100)).sba_loan =
      (calculate_capital_structure 994000 220000 0 50000 50000 0.10 25 17139
        200000).sba_loan - 100 :=
  loan_decreases_by_equity 994000 220000 0 50000 50000 0.10 25 17139 200000 100
    (by norm_num) (by norm_num)

/-- The running amortization balance is never negative. -/
theorem amort_balance_nonneg (principal apr : ℚ) (term_years : ℤ)
    (hp : 0 ≤ principal) : ∀ m, 0 ≤ amort_balance principal apr term_years m
  | 0 => hp
  | _ + 1 => le_max_left 0 _

/-- C10: for a non-negative principal, non-negative APR, positive term and
any number of months, every row of `amortization_schedule` has
non-negative interest, principal and balance, and the month-end balances
are non-increasing (the balance never goes negative even after the loan
is fully paid off). -/
theorem amortization_schedule_invariants (principal apr : ℚ) (term_years : ℤ)
    (months : ℕ) (hp : 0 ≤ principal) (ha : 0 ≤ apr) (_ht : 0 < term_years) :
    (∀ row ∈ amortization_schedule principal apr term_years months,
      0 ≤ row.interest ∧ 0 ≤ row.principal ∧ 0 ≤ row.balance) ∧
    (∀ m : ℕ, (amort_row principal apr term_years (m + 1)).balance ≤
      (amort_row principal apr term_years m).balance) := by
  have hrow : ∀ m : ℕ, 0 ≤ (amort_row principal apr term_years m).interest ∧
      0 ≤ (amort_row principal apr term_years m).principal ∧
      0 ≤ (amort_row principal apr term_years m).balance := by
    intro m
    refine ⟨?_, le_max_left 0 _, le_max_left 0 _⟩
    exact mul_nonneg (amort_balance_nonneg principal apr term_years hp m)
      (div_nonneg ha (by norm_num))
  have hbal : ∀ m : ℕ, (amort_row principal apr term_years m).balance =
      amort_balance principal apr term_years (m + 1) := fun m => rfl
  constructor
  · intro row hrowmem
    simp only [amortization_schedule, List.mem_map, List.mem_range] at hrowmem
    obtain ⟨m, _, rfl⟩ := hrowmem
    exact hrow m
  · intro m
    rw [hbal, hbal]
    show amort_balance principal apr term_years (m + 2) ≤ _
    have hb : 0 ≤ amort_balance principal apr term_years (m + 1) :=
      amort_balance_nonneg principal apr term_years hp (m + 1)
    have hpay : 0 ≤ max 0 (monthly_payment principal apr term_years -
        amort_balance principal apr term_years (m + 1) * (apr / 12)) :=
      le_max_left 0 _
    show max 0 (amort_balance principal apr term_years (m + 1) - _) ≤ _
    exact max_le hb (by linarith)

/-- C10 witness: the default loan ($1.2M at 9% APR over 10 years) has a
non-increasing balance from month 3 to month 4, with non-negative
interest, principal, and balance in month 3. -/
theorem amortization_schedule_invariants_witness :
    (0 ≤ (amort_row 1200000 0.09 10 3).interest ∧
      0 ≤ (amort_row 1200000 0.09 10 3).principal ∧
      0 ≤ (amort_row 1200000 0.09 10 3).balance) ∧
    (amort_row 1200000 0.09 10 4).balance ≤ (amort_row 1200000 0.09 10 3).balance := by
  have h := amortization_schedule_invariants 1200000 0.09 10 24 (by norm_num)
    (by norm_num) (by norm_num)
  refine ⟨h.1 (amort_row 1200000 0.09 10 3) ?_, h.2 3⟩
  simp only [amortization_schedule, List.mem_map, List.mem_range]
  exact ⟨3, by norm_num, rfl⟩

/-- The auto-fit `while` loops terminate in a state where either the
counter has reached its floor or the league load fits, and the counter
never drops below a floor it started at or above. -/
theorem reduce_while_aux_spec (L : ℤ → ℚ) (p : ℚ) (lo : ℤ) :
    ∀ (fuel : ℕ) (c : ℤ), (c - lo).toNat ≤ fuel →
      (reduce_while_aux L p lo fuel c ≤ lo ∨ L (reduce_while_aux L p lo fuel c) ≤ p) ∧
      reduce_while_aux L p lo fuel c ≤ c ∧
      (lo ≤ c → lo ≤ reduce_while_aux L p lo fuel c) := by
  intro fuel
  induction fuel with
  | zero =>
    intro c hfuel
    have hcl : c ≤ lo := by omega
    simp only [reduce_while_aux]
    exact ⟨Or.inl hcl, le_refl c, fun h => h⟩
  | succ fuel ih =>
    intro c hfuel
    simp only [reduce_while_aux]
    split_ifs with h
    · have h1 : (c - 1 - lo).toNat ≤ fuel := by omega
      obtain ⟨hd, hle, hlo2⟩ := ih (c - 1) h1
      exact ⟨hd, le_trans hle (by omega), fun _ => hlo2 (by omega)⟩
    · push_neg at h
      refine ⟨?_, le_refl c, fun hh => hh⟩
      by_cases hcl : lo < c
      · exact Or.inr (h hcl)
      · exact Or.inl (le_of_not_lt hcl)

/-- `reduce_while` postcondition. -/
theorem reduce_while_spec (L : ℤ → ℚ) (p : ℚ) (lo c : ℤ) :
    (reduce_while L p lo c ≤ lo ∨ L (reduce_while L p lo c) ≤ p) ∧
    reduce_while L p lo c ≤ c ∧
    (lo ≤ c → lo ≤ reduce_while L p lo c) :=
  reduce_while_aux_spec L p lo (c - lo).toNat c (le_refl _)

/-- Stage-2 loop postcondition. -/
theorem fit_blocks_fri_spec (bmt bw : ℤ) (B p : ℚ) (cu bf0 : ℤ) :
    (fit_blocks_fri bmt bw B p cu bf0 ≤ 0 ∨
      ((4 * bmt + 1 * fit_blocks_fri bmt bw B p cu bf0 + 2 * bw : ℤ) : ℚ) * B * (cu : ℚ) ≤ p) ∧
    fit_blocks_fri bmt bw B p cu bf0 ≤ bf0 ∧
    (0 ≤ bf0 → 0 ≤ fit_blocks_fri bmt bw B p cu bf0) :=
  reduce_while_spec _ p 0 bf0

/-- Stage-3 loop postcondition. -/
theorem fit_blocks_mon_thu_spec (bf bw : ℤ) (B p : ℚ) (cu bmt0 : ℤ) :
    (fit_blocks_mon_thu bf bw B p cu bmt0 ≤ 0 ∨
      ((4 * fit_blocks_mon_thu bf bw B p cu bmt0 + 1 * bf + 2 * bw : ℤ) : ℚ) * B * (cu : ℚ) ≤ p) ∧
    fit_blocks_mon_thu bf bw B p cu bmt0 ≤ bmt0 ∧
    (0 ≤ bmt0 → 0 ≤ fit_blocks_mon_thu bf bw B p cu bmt0) :=
  reduce_while_spec _ p 0 bmt0

/-- Stage-4 loop postcondition. -/
theorem fit_blocks_weekend_spec (bmt bf : ℤ) (B p : ℚ) (cu bw0 : ℤ) :
    (fit_blocks_weekend bmt bf B p cu bw0 ≤ 0 ∨
      ((4 * bmt + 1 * bf + 2 * fit_blocks_weekend bmt bf B p cu bw0 : ℤ) : ℚ) * B * (cu : ℚ) ≤ p) ∧
    fit_blocks_weekend bmt bf B p cu bw0 ≤ bw0 ∧
    (0 ≤ bw0 → 0 ≤ fit_blocks_weekend bmt bf B p cu bw0) :=
  reduce_while_spec _ p 0 bw0

/-- If the ladder reaches stage 4 (stages 2 and 3 exhausted their block
counts without fitting), the stage-4 result fits: either its loop exited
on the fit condition, or all three block counts are zero and the league
load is zero. -/
theorem step4_fits (B p : ℚ) (hp : 0 ≤ p) (bmt0 bf0 bw0 cu : ℤ)
    (hbmt0 : 0 ≤ bmt0) (hbf0 : 0 ≤ bf0) (hbw0 : 0 ≤ bw0)
    (h2 : ¬ ((4 * bmt0 + 1 * fit_blocks_fri bmt0 bw0 B p cu bf0 + 2 * bw0 : ℤ) : ℚ) *
      B * (cu : ℚ) ≤ p)
    (h3 : ¬ ((4 * fit_blocks_mon_thu (fit_blocks_fri bmt0 bw0 B p cu bf0) bw0 B p cu bmt0 +
        1 * fit_blocks_fri bmt0 bw0 B p cu bf0 + 2 * bw0 : ℤ) : ℚ) * B * (cu : ℚ) ≤ p) :
    ((4 * fit_blocks_mon_thu (fit_blocks_fri bmt0 bw0 B p cu bf0) bw0 B p cu bmt0 +
      1 * fit_blocks_fri bmt0 bw0 B p cu bf0 +
      2 * fit_blocks_weekend
          (fit_blocks_mon_thu (fit_blocks_fri bmt0 bw0 B p cu bf0) bw0 B p cu bmt0)
          (fit_blocks_fri bmt0 bw0 B p cu bf0) B p cu bw0 : ℤ) : ℚ) * B * (cu : ℚ) ≤ p := by
  obtain ⟨hd2, -, hge2⟩ := fit_blocks_fri_spec bmt0 bw0 B p cu bf0
  have hbf : fit_blocks_fri bmt0 bw0 B p cu bf0 = 0 :=
    le_antisymm (hd2.resolve_right h2) (hge2 hbf0)
  obtain ⟨hd3, -, hge3⟩ := fit_blocks_mon_thu_spec
    (fit_blocks_fri bmt0 bw0 B p cu bf0) bw0 B p cu bmt0
  have hbmt : fit_blocks_mon_thu (fit_blocks_fri bmt0 bw0 B p cu bf0) bw0 B p cu bmt0 = 0 :=
    le_antisymm (hd3.resolve_right h3) (hge3 hbmt0)
  obtain ⟨hd4, -, hge4⟩ := fit_blocks_weekend_spec
    (fit_blocks_mon_thu (fit_blocks_fri bmt0 bw0 B p cu bf0) bw0 B p cu bmt0)
    (fit_blocks_fri bmt0 bw0 B p cu bf0) B p cu bw0
  rcases hd4 with hle | hfit
  · have hbw : fit_blocks_weekend
        (fit_blocks_mon_thu (fit_blocks_fri bmt0 bw0 B p cu bf0) bw0 B p cu bmt0)
        (fit_blocks_fri bmt0 bw0 B p cu bf0) B p cu bw0 = 0 :=
      le_antisymm hle (hge4 hbw0)
    rw [hbw, hbmt, hbf]
    push_cast
    simpa using hp
  · exact hfit

/-- C1 counterexample: with the default facility and prime window (so
positive courts and non-negative prime-window lengths — a valid
configuration in the claim's sense) but a league session length and
buffer of 0, `derive_league_capacity` raises `ZeroDivisionError`
(modelled as `none`) instead of returning a result. -/
theorem derive_league_capacity_zero_block_len_raises :
    derive_league_capacity
      { mon_thu_start := 16, mon_thu_end := 22, fri_start := 16, fri_end := 21,
        weekend_morning_hours := 4 }
      { session_len_h := 0, buffer_min := 0, weeknights := 4, weekend_morns := 1,
        courts_used := 4, players_per_court := 4, fill_rate := 0.90,
        active_weeks := 46, price_prime_slot_6wk := 150, price_off_slot_6wk := 100 }
      { courts := 4, hours_per_day := 14 } = none ∧
    (0 : ℤ) < 4 ∧ (0 : ℚ) ≤ 22 - 16 ∧ (0 : ℚ) ≤ 21 - 16 ∧ (0 : ℚ) ≤ 4 := by
  refine ⟨?_, by norm_num, by norm_num, by norm_num, by norm_num⟩
  unfold derive_league_capacity
  norm_num

/-- C1 amended: for every valid configuration — positive courts,
non-negative prime-window lengths and a positive league block length
(`session_len_h + buffer_min/60 > 0`) — `derive_league_capacity` returns
a result without raising, and in that result
`league_ch_week ≤ prime_ch_week` always (the stage-4 floor of the
degradation ladder leaves zero blocks, hence zero league court-hours, so
no residual violation is possible under these hypotheses). -/
theorem derive_league_capacity_fits (prime : PrimeWindow) (league : LeagueConfig)
    (facility : Facility)
    (hc : 0 < facility.courts)
    (hm : 0 ≤ prime.mon_thu_end - prime.mon_thu_start)
    (hf : 0 ≤ prime.fri_end - prime.fri_start)
    (hw : 0 ≤ prime.weekend_morning_hours)
    (hb : 0 < league.session_len_h + (league.buffer_min : ℚ) / 60) :
    derive_league_capacity prime league facility =
      some (derive_league_capacity_total prime league facility) ∧
    (derive_league_capacity_total prime league facility).league_ch_week ≤
      (derive_league_capacity_total prime league facility).prime_ch_week := by
  have hcast : (0 : ℚ) ≤ (facility.courts : ℚ) := by exact_mod_cast hc.le
  have hprime : 0 ≤ (facility.courts : ℚ) *
      (4 * (prime.mon_thu_end - prime.mon_thu_start) +
        1 * (prime.fri_end - prime.fri_start) + 2 * prime.weekend_morning_hours) :=
    mul_nonneg hcast (by linarith)
  have hblocks : ∀ w : ℚ, 0 ≤ w →
      0 ≤ calculate_blocks_per_window w league.session_len_h league.buffer_min := by
    intro w hw0
    show (0 : ℤ) ≤ ⌊w / (league.session_len_h + (league.buffer_min : ℚ) / 60)⌋
    exact Int.floor_nonneg.mpr (div_nonneg hw0 hb.le)
  constructor
  · unfold derive_league_capacity
    rw [if_neg hb.ne']
  · simp only [derive_league_capacity_total]
    split_ifs with h0 h1 h2 h3
    · exact h1
    · exact h2
    · exact h3
    · exact step4_fits _ _ hprime _ _ _ _
        (hblocks _ hm) (hblocks _ hf) (hblocks _ hw) h2 h3
    · exact le_of_not_lt h0

/-- C1 amended witness: the default prime window, league configuration
and facility. -/
theorem derive_league_capacity_fits_witness :
    derive_league_capacity default_config.prime default_config.league
        default_config.facility =
      some (derive_league_capacity_total default_config.prime
        default_config.league default_config.facility) ∧
    (derive_league_capacity_total default_config.prime default_config.league
        default_config.facility).league_ch_week ≤
      (derive_league_capacity_total default_config.prime default_config.league
        default_config.facility).prime_ch_week :=
  derive_league_capacity_fits _ _ _ (by norm_num [default_config])
    (by norm_num [default_config]) (by norm_num [default_config])
    (by norm_num [default_config]) (by norm_num [default_config])

/-- `python_round_real` never rounds below the floor. -/
theorem python_round_real_floor_le (x : ℝ) : ⌊x⌋ ≤ python_round_real x := by
  unfold python_round_real
  split_ifs <;> omega

/-- `python_round_real` never rounds above the floor plus one. -/
theorem python_round_real_le_floor_add_one (x : ℝ) : python_round_real x ≤ ⌊x⌋ + 1 := by
  unfold python_round_real
  split_ifs <;> omega

/-- Rounding a non-negative real is non-negative. -/
theorem python_round_real_nonneg {x : ℝ} (h : 0 ≤ x) : 0 ≤ python_round_real x :=
  le_trans (Int.floor_nonneg.mpr h) (python_round_real_floor_le x)

/-- Rounding a real that is at most the integer `K` yields at most `K`. -/
theorem python_round_real_le {x : ℝ} {K : ℤ} (h : x ≤ (K : ℝ)) :
    python_round_real x ≤ K := by
  have hfl : ⌊x⌋ ≤ K := by
    have := Int.floor_le_floor h
    simpa using this
  unfold python_round_real
  split_ifs with h1 h2 h3
  · exact hfl
  all_goals {
    rcases hfl.lt_or_eq with hlt | heq
    · omega
    · exfalso
      have hx : x ≤ ((⌊x⌋ : ℤ) : ℝ) := by
        rw [heq]; exact_mod_cast h
      have := Int.sub_one_lt_floor x
      push_neg at h1
      linarith
  }

/-- Python's round-half-to-even is monotone. -/
theorem python_round_real_mono {x y : ℝ} (h : x ≤ y) :
    python_round_real x ≤ python_round_real y := by
  have hfl : ⌊x⌋ ≤ ⌊y⌋ := Int.floor_le_floor h
  rcases hfl.lt_or_eq with hlt | heq
  · calc python_round_real x ≤ ⌊x⌋ + 1 := python_round_real_le_floor_add_one x
      _ ≤ ⌊y⌋ := by omega
      _ ≤ python_round_real y := python_round_real_floor_le y
  · have hcast : ((⌊x⌋ : ℤ) : ℝ) = ((⌊y⌋ : ℤ) : ℝ) := by exact_mod_cast heq
    have hfr : x - ((⌊y⌋ : ℤ) : ℝ) ≤ y - ((⌊y⌋ : ℤ) : ℝ) := by linarith
    unfold python_round_real
    rw [heq]
    split_ifs <;> first | omega | linarith

/-- The logistic curve is non-negative when the cap is. -/
theorem logistic_members_nonneg (t : ℕ) (K : ℤ) (r : ℚ) (t_mid start_members : ℤ)
    (hK : 0 ≤ K) : 0 ≤ logistic_members t K r t_mid start_members := by
  unfold logistic_members
  have hKr : (0 : ℝ) ≤ (K : ℝ) := by exact_mod_cast hK
  have hden : (0 : ℝ) < 1 + Real.exp (-(r : ℝ) * ((t : ℝ) - (t_mid : ℝ))) := by positivity
  exact le_min hKr (le_max_of_le_right (div_nonneg hKr hden.le))

/-- The logistic curve is capped at `K`. -/
theorem logistic_members_le (t : ℕ) (K : ℤ) (r : ℚ) (t_mid start_members : ℤ) :
    logistic_members t K r t_mid start_members ≤ (K : ℝ) := by
  unfold logistic_members
  exact min_le_left _ _

/-- The logistic curve is monotone in the month for a non-negative cap
and growth rate. -/
theorem logistic_members_mono (K : ℤ) (r : ℚ) (t_mid start_members : ℤ)
    (hK : 0 ≤ K) (hr : 0 ≤ r) {t t' : ℕ} (h : t ≤ t') :
    logistic_members t K r t_mid start_members ≤
      logistic_members t' K r t_mid start_members := by
  unfold logistic_members
  have ht : (t : ℝ) ≤ (t' : ℝ) := by exact_mod_cast h
  have hr' : (0 : ℝ) ≤ (r : ℝ) := by exact_mod_cast hr
  have harg : -(r : ℝ) * ((t' : ℝ) - (t_mid : ℝ)) ≤ -(r : ℝ) * ((t : ℝ) - (t_mid : ℝ)) := by
    have := mul_le_mul_of_nonneg_left (sub_le_sub_right ht (t_mid : ℝ)) hr'
    linarith
  have hexp := Real.exp_le_exp.mpr harg
  have hden : (0 : ℝ) < 1 + Real.exp (-(r : ℝ) * ((t' : ℝ) - (t_mid : ℝ))) := by positivity
  have hKr : (0 : ℝ) ≤ (K : ℝ) := by exact_mod_cast hK
  have hbase : (K : ℝ) / (1 + Real.exp (-(r : ℝ) * ((t : ℝ) - (t_mid : ℝ)))) ≤
      (K : ℝ) / (1 + Real.exp (-(r : ℝ) * ((t' : ℝ) - (t_mid : ℝ)))) := by
    gcongr
  exact min_le_min le_rfl (max_le_max le_rfl hbase)

/-- C9: for every configuration whose growth parameters are a valid
logistic ramp (cap `K ≥ 0`, rate `r ≥ 0`) and every month of the
projection, the membership count satisfies `0 ≤ members(t) ≤ K` and the
monthly membership counts are non-decreasing. -/
theorem members_bounded_monotone (cfg : Config) (hK : 0 ≤ cfg.growth.K)
    (hr : 0 ≤ cfg.growth.r) (t : ℕ) :
    (0 ≤ (proj_row cfg t).members ∧ (proj_row cfg t).members ≤ cfg.growth.K) ∧
    (proj_row cfg t).members ≤ (proj_row cfg (t + 1)).members := by
  have hmem : ∀ s : ℕ, (proj_row cfg s).members = members_of cfg.growth s := fun s => rfl
  rw [hmem, hmem]
  unfold members_of
  refine ⟨⟨?_, ?_⟩, ?_⟩
  · exact python_round_real_nonneg
      (logistic_members_nonneg t cfg.growth.K cfg.growth.r cfg.growth.t_mid
        cfg.growth.start_members hK)
  · exact python_round_real_le
      (logistic_members_le t cfg.growth.K cfg.growth.r cfg.growth.t_mid
        cfg.growth.start_members)
  · exact python_round_real_mono
      (logistic_members_mono cfg.growth.K cfg.growth.r cfg.growth.t_mid
        cfg.growth.start_members hK hr (Nat.le_succ t))

/-- C9 witness: the default growth configuration (K = 350, r = 0.35) at
month 3. -/
theorem members_bounded_monotone_witness :
    ((0 ≤ (proj_row default_config 3).members ∧
      (proj_row default_config 3).members ≤ default_config.growth.K) ∧
    (proj_row default_config 3).members ≤ (proj_row default_config 4).members) :=
  members_bounded_monotone default_config (by norm_num [default_config])
    (by norm_num [default_config]) 3

/-- The defining field equations of a projection row: `EBITDA_m` is total
revenue minus total opex, and total opex is fixed + variable + staff. -/
theorem proj_row_core_field_eqs (cfg : Config) (members : ℤ) (t : ℕ) :
    (proj_row_core cfg members t).EBITDA_m =
      (proj_row_core cfg members t).rev_total -
        (proj_row_core cfg members t).opex_total_m ∧
    (proj_row_core cfg members t).opex_total_m =
      (proj_row_core cfg members t).fixed_opex_m +
        (proj_row_core cfg members t).variable_costs_m +
        (proj_row_core cfg members t).staff_costs_m :=
  ⟨rfl, rfl⟩

/-- The Statement Builder's recomputed EBITDA coincides exactly with the
Projection Engine's EBITDA for every month row. -/
theorem statements_ebitda_eq (cfg : Config) (t : ℕ) :
    statements_ebitda (proj_row cfg t) = (proj_row cfg t).EBITDA_m := by
  obtain ⟨h1, h2⟩ := proj_row_core_field_eqs cfg (members_of cfg.growth t) t
  have hr : proj_row cfg t = proj_row_core cfg (members_of cfg.growth t) t := rfl
  unfold statements_ebitda
  rw [hr, h1, h2]
  ring

/-- The hard EBITDA cross-check assertion always passes. -/
theorem ebitda_assert_always_ok (cfg : Config) (t : ℕ) :
    ebitda_assert_ok (proj_row cfg t) := by
  unfold ebitda_assert_ok
  rw [statements_ebitda_eq, sub_self, abs_zero]
  norm_num

/-- C3: for every configuration and every month, the Statement Builder's
recomputed EBITDA (total revenue minus COGS minus fixed opex) equals the
Projection Engine's EBITDA_m exactly — in particular they differ by less
than $1, so the hard assertion comparing them never fires. -/
theorem statement_builder_ebitda_matches (cfg : Config) (t : ℕ) :
    statements_ebitda (proj_row cfg t) = (proj_row cfg t).EBITDA_m ∧
    ebitda_assert_ok (proj_row cfg t) :=
  ⟨statements_ebitda_eq cfg t, ebitda_assert_always_ok cfg t⟩

/-- The plug step in isolation: plugging equity with the pre-plug
discrepancy leaves a post-plug discrepancy of 0 when the plug fires, and
the unchanged pre-plug discrepancy otherwise. -/
theorem plug_check (A d re C0 : ℚ) (hcb : A - (d + re) = C0) :
    |A - (d + (if 1 < |A - (d + re)| then re + (A - (d + re)) else re))| =
      if 1 < |C0| then 0 else |C0| := by
  rw [hcb]
  split_ifs with h
  · have hz : A - (d + (re + C0)) = (A - (d + re)) - C0 := by ring
    rw [hz, hcb, sub_self, abs_zero]
  · rw [hcb]

/-- The pre-plug balance-sheet discrepancy is invariant across months:
each month adds `net_income + depreciation − principal` to cash,
`depreciation` to accumulated depreciation, `−principal` to debt and
`net_income` to retained earnings, which cancel exactly, so the
discrepancy always equals the month-0 imbalance
`wc_reserve_start + (leasehold + equipment) − loan_amount`. -/
theorem bs_state_invariant (cfg : Config) (t : ℕ) :
    (bs_state cfg t).cash +
      ((cfg.finance.leasehold_improvements + cfg.finance.equipment) -
        (bs_state cfg t).accumulated_depreciation) -
      ((bs_state cfg t).debt_balance + (bs_state cfg t).retained_earnings) =
    cfg.finance.wc_reserve_start +
      (cfg.finance.leasehold_improvements + cfg.finance.equipment) -
      cfg.finance.loan_amount := by
  induction t with
  | zero =>
    simp only [bs_state, bs_init]
    ring
  | succ t ih =>
    simp only [bs_state, bs_step]
    linarith [ih]

/-- The post-plug balance-sheet check in closed form: 0 when the constant
pre-plug imbalance exceeds $1 in absolute value (the plug fires), and the
absolute pre-plug imbalance otherwise. -/
theorem bs_row_check_closed (cfg : Config) (t : ℕ) :
    (bs_row cfg t).check =
      if 1 < |cfg.finance.wc_reserve_start +
          (cfg.finance.leasehold_improvements + cfg.finance.equipment) -
          cfg.finance.loan_amount| then 0
      else |cfg.finance.wc_reserve_start +
          (cfg.finance.leasehold_improvements + cfg.finance.equipment) -
          cfg.finance.loan_amount| := by
  have hinv := bs_state_invariant cfg (t + 1)
  unfold bs_row
  dsimp only
  exact plug_check _ _ _ _ hinv

/-- C2 amended: for every configuration and every month, the
balance-sheet row satisfies `|total_assets − (debt_balance + equity)| ≤ 1`
after the plug (the discrepancy is 0 whenever the plug fires, and equals
the constant pre-plug imbalance — which can be exactly $1 — otherwise). -/
theorem balance_sheet_check_le_one (cfg : Config) (t : ℕ) :
    |(bs_row cfg t).total_assets -
      ((bs_row cfg t).debt_balance + (bs_row cfg t).equity)| ≤ 1 := by
  have hch : |(bs_row cfg t).total_assets -
      ((bs_row cfg t).debt_balance + (bs_row cfg t).equity)| = (bs_row cfg t).check := rfl
  rw [hch, bs_row_check_closed]
  split_ifs with h
  · norm_num
  · exact le_of_not_lt h

/-- At the knife-edge configuration the per-month `weekly_allocation`
asserts pass for every ramped month: the prime windows are empty, so both
the league and prime court-hours are 0 regardless of the ramp. -/
theorem knife_edge_compute_ok (t : ℕ) : compute_ok (cfg_month knife_edge_config t) := by
  unfold compute_ok weekly_allocation compute_alloc weekly_allocation_total
  simp only [compute_effective_league, cfg_month, knife_edge_config, default_config,
    prime_hours_week, total_court_hours_week, league_court_hours_week,
    weekly_league_blocks, blocks_per_window, derive_league_capacity_total,
    calculate_blocks_per_window]
  norm_num [max_def]

/-- At the knife-edge configuration the labor double-count guard cannot
fire: the payroll opex allocation is 0, so `opex_payroll_salary` is 0. -/
theorem knife_edge_guard_ok (t : ℕ) :
    ¬ labor_guard_fires knife_edge_config.finance (proj_row knife_edge_config t) := by
  unfold labor_guard_fires opex_payroll_salary
  simp [knife_edge_config, default_config]

/-- `build_financial_statements` runs to completion at the knife-edge
configuration. -/
theorem knife_edge_statements_ok : statements_ok knife_edge_config := by
  refine ⟨by norm_num [knife_edge_config, default_config],
    by norm_num [knife_edge_config, default_config],
    by norm_num [knife_edge_config, default_config], ?_, ?_, ?_⟩
  · unfold amort_defined
    rw [if_neg (by norm_num [knife_edge_config, default_config])]
    norm_num [knife_edge_config, default_config]
  · show (∑ j, knife_edge_config.seasonality.league_week_fractions j) ≠ 0
    show (∑ j, default_league_week_fractions j) ≠ 0
    simp only [Fin.sum_univ_succ, Fin.sum_univ_zero, default_league_week_fractions]
    norm_num
  · intro t _
    exact ⟨knife_edge_compute_ok t,
      ebitda_assert_always_ok knife_edge_config t,
      knife_edge_guard_ok t⟩

/-- The knife-edge configuration is a fixed point of the
`__post_init__` utilization-solver wiring (its `util_off` is already the
solved value 0.73), so it is a constructible `Config`. -/
theorem knife_edge_post_init_fixed :
    config_post_init knife_edge_config = knife_edge_config := by
  have h1 : (solve_offpeak_util 0.73 knife_edge_config.openplay.util_prime
      (engine_prime_share knife_edge_config)).1 = 0.73 := by
    norm_num [solve_offpeak_util, engine_prime_share, prime_hours_week,
      total_court_hours_week, knife_edge_config, default_config, max_def]
  unfold config_post_init
  dsimp only
  rw [h1]
  rfl

/-- C2 counterexample: at the knife-edge configuration (default config,
empty prime windows, zero payroll allocation, loan chosen so that
`wc + leasehold + equipment − loan = 1`) `build_financial_statements`
produces its 24 balance-sheet rows, and already the first row has
`|total_assets − (debt_balance + equity)| = 1`, which is not `< 1`: the
plug only fires when the discrepancy exceeds $1, so a pre-plug
discrepancy of exactly $1 survives. -/
theorem balance_sheet_check_can_equal_one :
    config_post_init knife_edge_config = knife_edge_config ∧
    build_financial_statements knife_edge_config =
      some ((List.range knife_edge_config.growth.months).map (bs_row knife_edge_config)) ∧
    ((List.range knife_edge_config.growth.months).map (bs_row knife_edge_config)).head? =
      some (bs_row knife_edge_config 0) ∧
    |(bs_row knife_edge_config 0).total_assets -
      ((bs_row knife_edge_config 0).debt_balance +
        (bs_row knife_edge_config 0).equity)| = 1 ∧
    ¬ (|(bs_row knife_edge_config 0).total_assets -
      ((bs_row knife_edge_config 0).debt_balance +
        (bs_row knife_edge_config 0).equity)| < 1) := by
  have hch : |(bs_row knife_edge_config 0).total_assets -
      ((bs_row knife_edge_config 0).debt_balance +
        (bs_row knife_edge_config 0).equity)| = (bs_row knife_edge_config 0).check := rfl
  have hone : (bs_row knife_edge_config 0).check = 1 := by
    rw [bs_row_check_closed]
    norm_num [knife_edge_config, default_config]
  refine ⟨knife_edge_post_init_fixed, ?_, rfl, ?_, ?_⟩
  · unfold build_financial_statements
    rw [if_pos knife_edge_statements_ok]
  · rw [hch, hone]
  · rw [hch, hone]
    norm_num

/-- `compute`'s weekly league revenue at an updated
`league_participants.member_share`, in closed form: every other quantity
in the league-revenue path is unchanged by the update. -/
theorem compute_weekly_league_rev_member_share (cfg : Config) (s : ℚ) :
    (compute (set_member_share cfg s)).weekly_league_rev =
      compute_filled_slots cfg *
        ((compute_filled_slots cfg * s * weighted_member_league_price
            cfg.league.price_prime_slot_6wk cfg.league_discounts (compute_tier_mix cfg) +
          (compute_filled_slots cfg - compute_filled_slots cfg * s) *
            cfg.league.price_prime_slot_6wk) /
          max 1e-9 (compute_filled_slots cfg) / 6) := rfl

/-- `compute`'s annual league revenue is weekly revenue times active
weeks, and the member-share update leaves `active_weeks` unchanged. -/
theorem compute_annual_league_rev_member_share (cfg : Config) (s : ℚ) :
    (compute (set_member_share cfg s)).annual_league_rev =
      (compute (set_member_share cfg s)).weekly_league_rev *
        (cfg.league.active_weeks : ℚ) := rfl

/-- The league-revenue formula is strictly decreasing in the member share
when there are filled slots and the discounted member price is strictly
below the base price. -/
theorem league_rev_formula_strict_anti (F D B M : ℚ) (hF : 0 < F) (hM : 0 < M)
    (hDB : D < B) {s₁ s₂ : ℚ} (hs : s₁ < s₂) :
    F * ((F * s₂ * D + (F - F * s₂) * B) / M / 6) <
      F * ((F * s₁ * D + (F - F * s₁) * B) / M / 6) := by
  have h1 : F * s₂ * D + (F - F * s₂) * B < F * s₁ * D + (F - F * s₁) * B := by
    nlinarith [mul_pos (mul_pos hF (sub_pos.mpr hs)) (sub_pos.mpr hDB)]
  gcongr F * (?_ / M / 6)

/-- C7 amended: holding everything else fixed, increasing
`league_participants.member_share` strictly decreases the weekly and
annual league revenue computed by `compute`, provided the league has at
least one filled slot, the tier-mix-weighted discounted member price is
strictly below the base slot price (some tier with positive mix share has
a positive discount), and `active_weeks` is positive. -/
theorem league_revenue_strict_decrease (cfg : Config) (s₁ s₂ : ℚ)
    (hfilled : 0 < compute_filled_slots cfg)
    (hdisc : weighted_member_league_price cfg.league.price_prime_slot_6wk
      cfg.league_discounts (compute_tier_mix cfg) < cfg.league.price_prime_slot_6wk)
    (hweeks : 0 < cfg.league.active_weeks)
    (hs : s₁ < s₂) :
    (compute (set_member_share cfg s₂)).weekly_league_rev <
      (compute (set_member_share cfg s₁)).weekly_league_rev ∧
    (compute (set_member_share cfg s₂)).annual_league_rev <
      (compute (set_member_share cfg s₁)).annual_league_rev := by
  have hM : (0 : ℚ) < max 1e-6 (compute_filled_slots cfg) := by positivity
  have hM' : (0 : ℚ) < max 1e-9 (compute_filled_slots cfg) :=
    lt_of_lt_of_le (by norm_num) (le_max_left _ _)
  have hweekly : (compute (set_member_share cfg s₂)).weekly_league_rev <
      (compute (set_member_share cfg s₁)).weekly_league_rev := by
    rw [compute_weekly_league_rev_member_share, compute_weekly_league_rev_member_share]
    exact league_rev_formula_strict_anti _ _ _ _ hfilled hM' hdisc hs
  refine ⟨hweekly, ?_⟩
  rw [compute_annual_league_rev_member_share, compute_annual_league_rev_member_share]
  have hAW : (0 : ℚ) < (cfg.league.active_weeks : ℚ) := by exact_mod_cast hweeks
  exact mul_lt_mul_of_pos_right hweekly hAW

/-- C7 amended witness: the default configuration (weighted member price
$129 < $150, 273.6 filled slots) with member share raised from 0.3 to 0.5. -/
theorem league_revenue_strict_decrease_witness :
    (compute (set_member_share default_config 0.5)).weekly_league_rev <
      (compute (set_member_share default_config 0.3)).weekly_league_rev ∧
    (compute (set_member_share default_config 0.5)).annual_league_rev <
      (compute (set_member_share default_config 0.3)).annual_league_rev :=
  league_revenue_strict_decrease default_config 0.3 0.5
    (by norm_num [compute_filled_slots, compute_slots_wk, compute_effective_league,
      league_weekly_slots, derive_league_capacity_total, calculate_blocks_per_window,
      default_config])
    (by norm_num [weighted_member_league_price, compute_tier_mix, default_config])
    (by norm_num [default_config])
    (by norm_num)

/-- C7 counterexample: in `empty_tier_config` the player tier discount is
0.15 > 0, the league has 57.6 ≥ 1 filled slots, yet raising the member
share from 0.3 to 0.5 leaves the weekly and annual league revenue
unchanged — the discounted tiers have zero mix share, so the
tier-mix-weighted member price equals the base price. -/
theorem league_revenue_constant_when_discounted_tier_empty :
    (0 : ℚ) < empty_tier_config.league_discounts.player_pct ∧
    (1 : ℚ) ≤ compute_filled_slots empty_tier_config ∧
    (0.3 : ℚ) < 0.5 ∧
    (compute (set_member_share empty_tier_config 0.5)).weekly_league_rev =
      (compute (set_member_share empty_tier_config 0.3)).weekly_league_rev ∧
    (compute (set_member_share empty_tier_config 0.5)).annual_league_rev =
      (compute (set_member_share empty_tier_config 0.3)).annual_league_rev := by
  have hD : weighted_member_league_price empty_tier_config.league.price_prime_slot_6wk
      empty_tier_config.league_discounts (compute_tier_mix empty_tier_config) = 150 := by
    norm_num [weighted_member_league_price, compute_tier_mix, empty_tier_config,
      default_config]
  have hB : empty_tier_config.league.price_prime_slot_6wk = 150 := rfl
  have hweekly : (compute (set_member_share empty_tier_config 0.5)).weekly_league_rev =
      (compute (set_member_share empty_tier_config 0.3)).weekly_league_rev := by
    rw [compute_weekly_league_rev_member_share, compute_weekly_league_rev_member_share,
      hD, hB]
    ring
  refine ⟨by norm_num [empty_tier_config, default_config], ?_, by norm_num, hweekly, ?_⟩
  · norm_num [compute_filled_slots, compute_slots_wk, compute_effective_league,
      league_weekly_slots, derive_league_capacity_total, calculate_blocks_per_window,
      empty_tier_config, default_config]
  · rw [compute_annual_league_rev_member_share, compute_annual_league_rev_member_share,
      hweekly]
